import Mathlib

/-!
# Ray-triangle intersection of `scene/triangle.cpp`

A shallow embedding of `Sphere::intersect` (the triangle intersection routine of
`src/scene/triangle.cpp`) and of the constants of `src/p3/util.hpp`.

## Number model

The scene data (`real_t` values read from the ray, the vertices, the matrices and the
materials) are finite numbers and are modelled by exact rationals `ℚ`; rounding and
overflow are not modelled.  Sums, differences and products of finite numbers are
finite, so every value of the routine up to the determinant `M` and the three
numerators is a rational.  The three quotients by `M` are the only operations that
can leave the finite range: in the IEEE-754 arithmetic that `float` and `double` have
on the platforms of the program, a quotient by zero is `±inf` or `NaN`, it is not an
error.  These quotients, and everything computed from them, live in the type `real_t`
below, which adds `+inf`, `-inf` and `NaN` to the rationals, with the IEEE-754 rules for
arithmetic and comparison on them.

## Results

Away from `M = 0` the routine is Cramer's rule for the ray-triangle system followed by
the test that the solution lies in the closed triangle at a parameter `t ≥ EPS`.  The
routine has no test on `M`: with `M = 0` quotients that are `NaN` pass the three
rejection tests, which are written with `<` and `>`, and a hit is reported.  The
material pointers are dereferenced without a null test, and the member `t` of the
record is never written.  For finite texture coordinates the pixel coordinates of a
texture lookup are within the image; the normal of a hit does not depend on the hit
point; away from `M = 0` the solve is invariant under rescaling the direction and
under exchanging vertices 1 and 2, up to the exchange of `β` and `γ`.
-/

namespace Raytracer

/-- Values of a `real_t` expression that depends on a quotient: a finite (exact) number,
one of the two infinities, or not-a-number. -/
inductive real_t where
  | fin (q : ℚ)
  | pinf
  | ninf
  | nan
deriving DecidableEq

namespace real_t

/-- Unary minus. -/
def neg : real_t → real_t
  | fin q => fin (-q)
  | pinf => ninf
  | ninf => pinf
  | nan => nan

/-- Addition: `inf + (-inf)` and anything with `NaN` is `NaN`. -/
def add : real_t → real_t → real_t
  | fin a, fin b => fin (a + b)
  | fin _, pinf => pinf
  | fin _, ninf => ninf
  | pinf, fin _ => pinf
  | pinf, pinf => pinf
  | ninf, fin _ => ninf
  | ninf, ninf => ninf
  | _, _ => nan

/-- Subtraction, `a - b = a + (-b)`. -/
def sub (a b : real_t) : real_t := add a (neg b)

/-- Sign rule for a product with an infinity: `0 * inf` is `NaN`. -/
def infTimes (positive : Bool) (q : ℚ) : real_t :=
  if q = 0 then nan else if decide (0 < q) = positive then pinf else ninf

/-- Multiplication. -/
def mul : real_t → real_t → real_t
  | fin a, fin b => fin (a * b)
  | fin a, pinf => infTimes true a
  | fin a, ninf => infTimes false a
  | pinf, fin b => infTimes true b
  | ninf, fin b => infTimes false b
  | pinf, pinf => pinf
  | ninf, ninf => pinf
  | pinf, ninf => ninf
  | ninf, pinf => ninf
  | _, _ => nan

/-- The comparison `a < b` of C++: false as soon as one side is `NaN`. -/
def lt : real_t → real_t → Bool
  | fin a, fin b => decide (a < b)
  | fin _, pinf => true
  | ninf, fin _ => true
  | ninf, pinf => true
  | _, _ => false

/-- The comparison `a > b` of C++. -/
def gt (a b : real_t) : Bool := lt b a

/-- The comparison `a >= b` of C++: false as soon as one side is `NaN`. -/
def ge : real_t → real_t → Bool
  | fin a, fin b => decide (b ≤ a)
  | pinf, fin _ => true
  | pinf, pinf => true
  | fin _, ninf => true
  | pinf, ninf => true
  | ninf, ninf => true
  | _, _ => false

/-- The quotient `x / m` of two finite numbers.  For `m ≠ 0` it is the exact quotient.
For `m = 0` it is `NaN` when `x = 0` and an infinity otherwise, whose sign is the sign
of `x` when the zero is `+0` and the opposite sign when the zero is `-0`; exact
arithmetic does not tell which zero a vanishing `m` is, so that bit is the argument
`negZero`. -/
def div (negZero : Bool) (x m : ℚ) : real_t :=
  if m = 0 then
    if x = 0 then nan
    else if decide (x < 0) = negZero then pinf else ninf
  else fin (x / m)

/-- The function `floor` of `<cmath>`: infinities and `NaN` are returned unchanged. -/
def floor : real_t → real_t
  | fin q => fin (⌊q⌋ : ℤ)
  | x => x

/-- The conversion `(int) x` of a value to `int`: truncation toward zero.  The conversion
is undefined for `NaN` and the infinities, and the model returns `none` there.  The
routine converts only products `frac * size` with `0 ≤ frac < 1` and `size` an `int`,
so a finite value is within the range of `int`. -/
def toInt : real_t → Option ℤ
  | fin q => some (if 0 ≤ q then ⌊q⌋ else ⌈q⌉)
  | _ => none

end real_t

instance : Neg real_t := ⟨real_t.neg⟩
instance : Add real_t := ⟨real_t.add⟩
instance : Sub real_t := ⟨real_t.sub⟩
instance : Mul real_t := ⟨real_t.mul⟩

/-- The class `Vector2` of `math/vector.hpp`, over the numbers `α`. -/
structure Vector2 (α : Type) where
  x : α
  y : α
deriving DecidableEq

/-- The class `Vector3` of `math/vector.hpp`, over the numbers `α`. -/
structure Vector3 (α : Type) where
  x : α
  y : α
  z : α
deriving DecidableEq

/-- The class `Color3` of `math/color.hpp`, over the numbers `α`. -/
structure Color3 (α : Type) where
  r : α
  g : α
  b : α
deriving DecidableEq

/-- The class `Quaternion` of `math/quaternion.hpp`; the routine only passes it on. -/
structure Quaternion where
  w : ℚ
  x : ℚ
  y : ℚ
  z : ℚ
deriving DecidableEq

namespace Vector2

variable {α β : Type}

/-- Componentwise image. -/
def map (f : α → β) (v : Vector2 α) : Vector2 β := ⟨f v.x, f v.y⟩

/-- The operator `Vector2 + Vector2`. -/
def add [Add α] (u v : Vector2 α) : Vector2 α := ⟨u.x + v.x, u.y + v.y⟩

/-- The operator `Vector2 * real_t`. -/
def scale [Mul α] (v : Vector2 α) (k : α) : Vector2 α := ⟨v.x * k, v.y * k⟩

end Vector2

namespace Vector3

variable {α β : Type}

/-- Componentwise image. -/
def map (f : α → β) (v : Vector3 α) : Vector3 β := ⟨f v.x, f v.y, f v.z⟩

/-- The operator `Vector3 + Vector3`. -/
def add [Add α] (u v : Vector3 α) : Vector3 α := ⟨u.x + v.x, u.y + v.y, u.z + v.z⟩

/-- The operator `real_t * Vector3`. -/
def smul [Mul α] (k : α) (v : Vector3 α) : Vector3 α := ⟨k * v.x, k * v.y, k * v.z⟩

/-- The dot product of a matrix row with a vector. -/
def dot [Add α] [Mul α] (u v : Vector3 α) : α := u.x * v.x + u.y * v.y + u.z * v.z

end Vector3

namespace Color3

variable {α β : Type}

/-- Componentwise image. -/
def map (f : α → β) (c : Color3 α) : Color3 β := ⟨f c.r, f c.g, f c.b⟩

/-- The operator `Color3 + Color3`. -/
def add [Add α] (c d : Color3 α) : Color3 α := ⟨c.r + d.r, c.g + d.g, c.b + d.b⟩

/-- The operator `Color3 * real_t`. -/
def scale [Mul α] (c : Color3 α) (k : α) : Color3 α := ⟨c.r * k, c.g * k, c.b * k⟩

/-- Modelled from the spec: `Color3::White()` of `math/color.hpp`, which is not among the
sources; the neutral white colour, all three channels equal to one. -/
def White : Color3 real_t := ⟨real_t.fin 1, real_t.fin 1, real_t.fin 1⟩

/-- Modelled from the spec: `Color3::Black()` of `math/color.hpp`, which is not among the
sources; all three channels equal to zero. -/
def Black : Color3 real_t := ⟨real_t.fin 0, real_t.fin 0, real_t.fin 0⟩

end Color3

instance {α : Type} [Add α] : Add (Vector2 α) := ⟨Vector2.add⟩
instance {α : Type} [Add α] : Add (Vector3 α) := ⟨Vector3.add⟩
instance {α : Type} [Add α] : Add (Color3 α) := ⟨Color3.add⟩

/-- Modelled from the spec: the class `Matrix3` of `math/matrix.hpp`, which is not among
the sources: a 3×3 matrix, given by its rows, acting on column vectors. -/
structure Matrix3 (α : Type) where
  r0 : Vector3 α
  r1 : Vector3 α
  r2 : Vector3 α
deriving DecidableEq

namespace Matrix3

variable {α β : Type}

/-- Entrywise image. -/
def map (f : α → β) (m : Matrix3 α) : Matrix3 β := ⟨m.r0.map f, m.r1.map f, m.r2.map f⟩

/-- Modelled from the spec: the operator `Matrix3 * Vector3` of `math/matrix.hpp`, which is
not among the sources: the matrix-vector product. -/
def mulVec [Add α] [Mul α] (m : Matrix3 α) (v : Vector3 α) : Vector3 α :=
  ⟨m.r0.dot v, m.r1.dot v, m.r2.dot v⟩

/-- The matrix product, used to say that one transform is the inverse of another. -/
def mul [Add α] [Mul α] (m n : Matrix3 α) : Matrix3 α :=
  let c0 : Vector3 α := ⟨n.r0.x, n.r1.x, n.r2.x⟩
  let c1 : Vector3 α := ⟨n.r0.y, n.r1.y, n.r2.y⟩
  let c2 : Vector3 α := ⟨n.r0.z, n.r1.z, n.r2.z⟩
  ⟨⟨m.r0.dot c0, m.r0.dot c1, m.r0.dot c2⟩,
   ⟨m.r1.dot c0, m.r1.dot c1, m.r1.dot c2⟩,
   ⟨m.r2.dot c0, m.r2.dot c1, m.r2.dot c2⟩⟩

/-- The identity matrix. -/
def one : Matrix3 ℚ := ⟨⟨1, 0, 0⟩, ⟨0, 1, 0⟩, ⟨0, 0, 1⟩⟩

end Matrix3

/-- Modelled from the spec: the class `Matrix4` of `math/matrix.hpp`, which is not among
the sources.  The world transform of a surface, built from its position, orientation and
scale, and the inverse of that transform are affine maps: a linear part and a
translation (the fourth row of the 4×4 matrix is `0 0 0 1`). -/
structure Matrix4 (α : Type) where
  linear : Matrix3 α
  translation : Vector3 α
deriving DecidableEq

namespace Matrix4

variable {α β : Type}

/-- Entrywise image. -/
def map (f : α → β) (m : Matrix4 α) : Matrix4 β := ⟨m.linear.map f, m.translation.map f⟩

/-- Modelled from the spec: `Matrix4::transform_point` of `math/matrix.hpp`, which is not
among the sources: the image of a point, linear part then translation. -/
def transform_point [Add α] [Mul α] (m : Matrix4 α) (v : Vector3 α) : Vector3 α :=
  m.linear.mulVec v + m.translation

/-- Modelled from the spec: `Matrix4::transform_vector` of `math/matrix.hpp`, which is not
among the sources: the image of a direction, the linear part alone. -/
def transform_vector [Add α] [Mul α] (m : Matrix4 α) (v : Vector3 α) : Vector3 α :=
  m.linear.mulVec v

/-- The identity transform. -/
def one : Matrix4 ℚ := ⟨Matrix3.one, ⟨0, 0, 0⟩⟩

/-- The product of two affine maps: first `n`, then `m`. -/
def mul (m n : Matrix4 ℚ) : Matrix4 ℚ :=
  ⟨m.linear.mul n.linear, m.linear.mulVec n.translation + m.translation⟩

/-- The matrix `n` is the inverse of the matrix `m`: both products are the identity. -/
def IsInverseOf (n m : Matrix4 ℚ) : Prop := n.mul m = one ∧ m.mul n = one

end Matrix4

/-- The class `Material` of `scene/material.hpp`, as far as the routine reads it.  The
texture image is external data: `get_texture_size` and `get_texture_pixel` are what the
two member functions of those names return. -/
structure Material where
  ambient : Color3 ℚ
  diffuse : Color3 ℚ
  specular : Color3 ℚ
  refractive_index : ℚ
  texture_filename : String
  get_texture_size : ℤ × ℤ
  get_texture_pixel : ℤ → ℤ → Color3 ℚ

/-- A vertex of a triangle; `material` is a pointer, `none` standing for the null pointer. -/
structure Vertex where
  position : Vector3 ℚ
  normal : Vector3 ℚ
  tex_coord : Vector2 ℚ
  material : Option Material

/-- The class `Triangle` with the members of its base class that the routine reads. -/
structure Triangle where
  vertices : Fin 3 → Vertex
  isBig : Bool
  position : Vector3 ℚ
  orientation : Quaternion
  scale : Vector3 ℚ
  invMat : Matrix4 ℚ
  normMat : Matrix3 ℚ

/-- The class `Ray`: eye point `e` and direction `d`. -/
structure Ray where
  e : Vector3 ℚ
  d : Vector3 ℚ

/-- Modelled from the spec: the record `Intersect` returned by the routine, whose
declaration is not among the sources: hit flag; parametric distance `t`; world-space
position and normal; interpolated material channels (ambient, diffuse, specular colors;
refractive index; texture color sample). -/
structure Intersect where
  intersect : Bool
  t : real_t
  position : Vector3 real_t
  normal : Vector3 real_t
  ambient : Color3 real_t
  diffuse : Color3 real_t
  specular : Color3 real_t
  refractive_index : real_t
  texture : Color3 real_t
deriving DecidableEq

/-- What the routine takes from the rest of the program: the constant `EPS`, the content
of a default-constructed `Intersect`, the helpers `make_transformation_matrix` and
`normalize`, and the sign bit of a determinant that evaluates to zero. -/
structure Env where
  EPS : ℚ
  negZero : Bool
  itn0 : Intersect
  make_transformation_matrix : Vector3 ℚ → Quaternion → Vector3 ℚ → Matrix4 ℚ
  normalize : Vector3 real_t → Vector3 real_t

set_option linter.dupNamespace false in
/-- The constructor `Triangle::Triangle()`: the three material pointers are set to null
and `isBig` to true; every other member keeps the content `raw` it had. -/
def Triangle.Triangle (raw : Triangle) : Triangle :=
  { raw with
    vertices := fun i => { raw.vertices i with material := none }
    isBig := true }

/-- Lines 26-28 of `Triangle::render`: the flag `materials_nonnull`, true when none of the
three material pointers is null; `render` reads a material only under this flag. -/
def materials_nonnull (self : Triangle) : Bool :=
  (List.finRange 3).foldl (fun acc i => acc && ((self.vertices i).material).isSome) true

/-- The values computed by lines 74-116 of `Sphere::intersect`. -/
structure Solve where
  E : Vector3 ℚ
  D : Vector3 ℚ
  M : ℚ
  t : real_t
  gamma : real_t
  beta : real_t

/-- Lines 74-116 of `Sphere::intersect` without the early returns: the object-space ray,
the determinant `M` and the three quotients `t`, `gamma`, `beta`. -/
def solve (negZero : Bool) (self : Triangle) (ray : Ray) : Solve :=
  let E := self.invMat.transform_point ray.e
  let D := self.invMat.transform_vector ray.d
  let a := (self.vertices 0).position.x - (self.vertices 1).position.x
  let b := (self.vertices 0).position.y - (self.vertices 1).position.y
  let c := (self.vertices 0).position.z - (self.vertices 1).position.z
  let d := (self.vertices 0).position.x - (self.vertices 2).position.x
  let e := (self.vertices 0).position.y - (self.vertices 2).position.y
  let f := (self.vertices 0).position.z - (self.vertices 2).position.z
  let g := D.x
  let h := D.y
  let i := D.z
  let j := (self.vertices 0).position.x - E.x
  let k := (self.vertices 0).position.y - E.y
  let l := (self.vertices 0).position.z - E.z
  let ei_hf := e * i - h * f
  let gf_di := g * f - d * i
  let dh_eg := d * h - e * g
  let M := a * ei_hf + b * gf_di + c * dh_eg
  let ak_jb := a * k - j * b
  let jc_al := j * c - a * l
  let bl_kc := b * l - k * c
  let t := real_t.div negZero (-(f * ak_jb + e * jc_al + d * bl_kc)) M
  let gamma := real_t.div negZero (i * ak_jb + h * jc_al + g * bl_kc) M
  let beta := real_t.div negZero (j * ei_hf + k * gf_di + l * dh_eg) M
  { E := E, D := D, M := M, t := t, gamma := gamma, beta := beta }

/-- The three tests of lines 107-118: true when none of them returns early, that is when
line 121 sets `itn.intersect = true`. -/
def passes (EPS : ℚ) (sv : Solve) : Bool :=
  !(sv.t.lt (real_t.fin EPS))
    && !(sv.gamma.lt (real_t.fin 0) || sv.gamma.gt (real_t.fin 1))
    && !(sv.beta.lt (real_t.fin 0) || sv.beta.gt (real_t.fin 1 - sv.gamma))

/-- One texture sample of lines 179-192: the pixel of material `m` at the fractional
coordinate `tex`; `none` when a conversion to `int` is undefined. -/
def sample (m : Material) (tex : Vector2 real_t) : Option (Color3 real_t) :=
  let width := m.get_texture_size.1
  let height := m.get_texture_size.2
  match (tex.x * real_t.fin width).toInt, (tex.y * real_t.fin height).toInt with
  | some px, some py => some ((m.get_texture_pixel px py).map real_t.fin)
  | _, _ => none

/-- Lines 155-196: the texture colour of a hit with barycentric weights
`w0 = 1 - beta - gamma`, `beta`, `gamma`. -/
def textureColor (self : Triangle) (m0 m1 m2 : Material) (w0 beta gamma : real_t) :
    Option (Color3 real_t) :=
  if m0.texture_filename.isEmpty && m1.texture_filename.isEmpty
      && m2.texture_filename.isEmpty then
    some Color3.White
  else
    let tex : Vector2 real_t :=
      ((self.vertices 0).tex_coord.map real_t.fin).scale w0
        + ((self.vertices 1).tex_coord.map real_t.fin).scale beta
        + ((self.vertices 2).tex_coord.map real_t.fin).scale gamma
    let tex : Vector2 real_t := ⟨tex.x - tex.x.floor, tex.y - tex.y.floor⟩
    let color := Color3.Black
    match sample m0 tex, sample m1 tex, sample m2 tex with
    | some c0, some c1, some c2 => some (color + c0.scale w0 + c1.scale beta + c2.scale gamma)
    | _, _, _ => none

/-- Lines 120-199 of `Sphere::intersect`: the record of a hit, built from the record `itn`
of line 70.  The result is `none` when the C++ code has no defined result: a null
material pointer is dereferenced, or a conversion to `int` is undefined. -/
def shade (env : Env) (self : Triangle) (sv : Solve) (itn : Intersect) : Option Intersect :=
  let E := sv.E
  let D := sv.D
  let t := sv.t
  let beta := sv.beta
  let gamma := sv.gamma
  let itn := { itn with intersect := true }
  let invMat_inv := env.make_transformation_matrix self.position self.orientation self.scale
  let local_pos := E.map real_t.fin + Vector3.smul t (D.map real_t.fin)
  let itn := { itn with position := (invMat_inv.map real_t.fin).transform_point local_pos }
  let local_norm := env.normalize
    (((self.vertices 0).normal + (self.vertices 1).normal
      + (self.vertices 2).normal).map real_t.fin)
  let itn := { itn with
    normal := env.normalize ((self.normMat.map real_t.fin).mulVec local_norm) }
  match (self.vertices 0).material, (self.vertices 1).material,
      (self.vertices 2).material with
  | some m0, some m1, some m2 =>
    let w0 := real_t.fin 1 - beta - gamma
    let itn := { itn with
      ambient := (m0.ambient.map real_t.fin).scale w0
        + (m1.ambient.map real_t.fin).scale beta
        + (m2.ambient.map real_t.fin).scale gamma }
    let itn := { itn with
      diffuse := (m0.diffuse.map real_t.fin).scale w0
        + (m1.diffuse.map real_t.fin).scale beta
        + (m2.diffuse.map real_t.fin).scale gamma }
    let itn := { itn with
      specular := (m0.specular.map real_t.fin).scale w0
        + (m1.specular.map real_t.fin).scale beta
        + (m2.specular.map real_t.fin).scale gamma }
    let itn := { itn with
      refractive_index := real_t.fin m0.refractive_index * w0
        + real_t.fin m1.refractive_index * beta
        + real_t.fin m2.refractive_index * gamma }
    match textureColor self m0 m1 m2 w0 beta gamma with
    | some c => some { itn with texture := c }
    | none => none
  | _, _, _ => none

/-- The routine `Sphere::intersect` of `scene/triangle.cpp` (the intersection routine of
the triangle: it reads `vertices`).  The result is `none` when the C++ routine has no
defined result, see `shade`. -/
def Sphere.intersect (env : Env) (self : Triangle) (ray : Ray) : Option Intersect :=
  let itn : Intersect := { env.itn0 with intersect := false }
  let sv := solve env.negZero self ray
  let t := sv.t
  if t.lt (real_t.fin env.EPS) then some itn
  else
    let gamma := sv.gamma
    if gamma.lt (real_t.fin 0) || gamma.gt (real_t.fin 1) then some itn
    else
      let beta := sv.beta
      if beta.lt (real_t.fin 0) || beta.gt (real_t.fin 1 - gamma) then some itn
      else shade env self sv itn

/-- The record returned on a miss: the default-constructed record with the flag cleared
(line 71). -/
def missRecord (env : Env) : Intersect := { env.itn0 with intersect := false }


/-- Lines 166-168: the interpolated texture coordinate of a hit with barycentric weights
`w0 = 1 - beta - gamma`, `beta`, `gamma`. -/
def texInterp (self : Triangle) (w0 beta gamma : real_t) : Vector2 real_t :=
  ((self.vertices 0).tex_coord.map real_t.fin).scale w0
    + ((self.vertices 1).tex_coord.map real_t.fin).scale beta
    + ((self.vertices 2).tex_coord.map real_t.fin).scale gamma

/-- Lines 170-171: the fractional part of the two texture coordinates,
`tex.x - floor(tex.x)` and `tex.y - floor(tex.y)`. -/
def texWrap (tex : Vector2 real_t) : Vector2 real_t :=
  ⟨tex.x - tex.x.floor, tex.y - tex.y.floor⟩

/-- The two arguments that lines 180-182 (and 185-187, 190-192) pass to
`get_texture_pixel` for the material `m`: `(int)(tex.x * width)` and
`(int)(tex.y * height)`; `none` when a conversion to `int` is undefined. -/
def texel (m : Material) (tex : Vector2 real_t) : Option (ℤ × ℤ) :=
  match (tex.x * real_t.fin m.get_texture_size.1).toInt,
      (tex.y * real_t.fin m.get_texture_size.2).toInt with
  | some px, some py => some (px, py)
  | _, _ => none

/-- Lines 132-133 over the numbers `α`: the vertex normals are summed, the sum is
normalised, multiplied by the normal matrix and normalised again.  The helper
`normalize` and the embedding `cast` of the scene data into `α` are arguments. -/
def worldNormal {α : Type} [Add α] [Mul α] (normalize : Vector3 α → Vector3 α)
    (cast : ℚ → α) (self : Triangle) : Vector3 α :=
  let local_norm := normalize
    (((self.vertices 0).normal + (self.vertices 1).normal
      + (self.vertices 2).normal).map cast)
  normalize ((self.normMat.map cast).mulVec local_norm)

/-- The triangle `self` with its vertices 1 and 2 exchanged. -/
def swapVertices (self : Triangle) : Triangle :=
  { self with vertices := ![self.vertices 0, self.vertices 2, self.vertices 1] }

/-- The macro `MAX_THREADS`: the number of threads OpenMP can use. -/
def MAX_THREADS : ℕ := 1

/-- The macro `MAX_DEPTH`: maximum depth of the recursive (sampling) tracing. -/
def MAX_DEPTH : ℕ := 10

/-- The macro `WATT_BOOST`: factor by which lighting is increased. -/
def WATT_BOOST : ℚ := 10

/-- The macro `MAX_PHOTON_DEPTH`: maximum depth of the recursive (photon) tracing. -/
def MAX_PHOTON_DEPTH : ℕ := 10

/-- The macro `PHOTON_COUNT`: total number of photons shot from the light source. -/
def PHOTON_COUNT : ℕ := 0

/-- The macro `PHOTON_SAMPLE_COUNT`: the number of photons used in each radiance
estimate. -/
def PHOTON_SAMPLE_COUNT : ℕ := 0

/-- The macro `DIRECT_SAMPLE_COUNT`: the number of samples used in the direct (shadow)
estimate. -/
def DIRECT_SAMPLE_COUNT : ℕ := 10

/-! ## Sample data

A scene used to evaluate the routine: a surface at position `(1, 0, 0)` with scale `2` and
no rotation, whose triangle has the object-space vertices `(0,0,0)`, `(1,0,0)`, `(0,1,0)`.
-/

/-- A material without texture, whose channels depend on `k`. -/
def exMaterial (k : ℚ) : Material :=
  { ambient := ⟨k, 0, 1⟩
    diffuse := ⟨1, k, 0⟩
    specular := ⟨0, 1, k⟩
    refractive_index := 1 + k
    texture_filename := ""
    get_texture_size := (0, 0)
    get_texture_pixel := fun _ _ => ⟨1, 1, 1⟩ }

/-- A vertex at `p` with normal `(0, 0, 1)`. -/
def exVertex (p : Vector3 ℚ) (m : Option Material) : Vertex :=
  { position := p, normal := ⟨0, 0, 1⟩, tex_coord := ⟨p.x, p.y⟩, material := m }

/-- A surface at position `(1, 0, 0)` with scale `2` and vertices `a`, `b`, `c`; `invMat`
is the inverse of its world transform. -/
def exSurface (a b c : Vertex) : Triangle :=
  { vertices := ![a, b, c]
    isBig := true
    position := ⟨1, 0, 0⟩
    orientation := ⟨1, 0, 0, 0⟩
    scale := ⟨2, 2, 2⟩
    invMat := ⟨⟨⟨1 / 2, 0, 0⟩, ⟨0, 1 / 2, 0⟩, ⟨0, 0, 1 / 2⟩⟩, ⟨-1 / 2, 0, 0⟩⟩
    normMat := ⟨⟨1 / 2, 0, 0⟩, ⟨0, 1 / 2, 0⟩, ⟨0, 0, 1 / 2⟩⟩ }

/-- The triangle `(0,0,0)`, `(1,0,0)`, `(0,1,0)` with three different materials. -/
def exTriangle : Triangle :=
  exSurface (exVertex ⟨0, 0, 0⟩ (some (exMaterial 0))) (exVertex ⟨1, 0, 0⟩ (some (exMaterial 1)))
    (exVertex ⟨0, 1, 0⟩ (some (exMaterial 2)))

/-- A degenerate triangle: the three vertices are the same point. -/
def exPoint : Triangle :=
  exSurface (exVertex ⟨0, 0, 0⟩ (some (exMaterial 0))) (exVertex ⟨0, 0, 0⟩ (some (exMaterial 1)))
    (exVertex ⟨0, 0, 0⟩ (some (exMaterial 2)))

/-- The triangle `(0,0,0)`, `(1,0,0)`, `(0,1,0)` as the constructor `Triangle::Triangle()`
leaves its material pointers. -/
def exBare : Triangle := Triangle.Triangle exTriangle

/-- The content of a record whose members are all zero. -/
def exRecord : Intersect :=
  { intersect := false
    t := real_t.fin 0
    position := ⟨real_t.fin 0, real_t.fin 0, real_t.fin 0⟩
    normal := ⟨real_t.fin 0, real_t.fin 0, real_t.fin 0⟩
    ambient := Color3.Black
    diffuse := Color3.Black
    specular := Color3.Black
    refractive_index := real_t.fin 0
    texture := Color3.Black }

/-- A sample environment: `EPS = 1/1000`; the transformation matrix of a surface without
rotation (scale, then translation); vectors are passed through by `normalize`. -/
def exEnv : Env :=
  { EPS := 1 / 1000
    negZero := false
    itn0 := exRecord
    make_transformation_matrix := fun p _ s =>
      ⟨⟨⟨s.x, 0, 0⟩, ⟨0, s.y, 0⟩, ⟨0, 0, s.z⟩⟩, p⟩
    normalize := fun v => v }

/-- A world-space ray that meets `exTriangle` at the object-space point `(1/4, 1/4, 0)`,
with parameter `t = 1`. -/
def exRay : Ray := ⟨⟨3 / 2, 1 / 2, 2⟩, ⟨0, 0, -2⟩⟩

/-- A world-space ray parallel to the plane of `exTriangle`, along its edge from vertex 0
to vertex 1. -/
def exRayParallel : Ray := ⟨⟨3 / 2, 1 / 2, -2⟩, ⟨2, 0, 0⟩⟩

/-- A second world-space ray that meets `exTriangle`, at the object-space point
`(1/2, 1/4, 0)`, with parameter `t = 1`. -/
def exRay2 : Ray := ⟨⟨2, 1 / 2, 2⟩, ⟨0, 0, -2⟩⟩

/-- The record of the hit of `exRay` on `exTriangle` in the environment `exEnv`. -/
def exHit : Intersect :=
  { intersect := true
    t := real_t.fin 0
    position := ⟨real_t.fin (3 / 2), real_t.fin (1 / 2), real_t.fin 0⟩
    normal := ⟨real_t.fin 0, real_t.fin 0, real_t.fin (3 / 2)⟩
    ambient := ⟨real_t.fin (3 / 4), real_t.fin 0, real_t.fin 1⟩
    diffuse := ⟨real_t.fin 1, real_t.fin (3 / 4), real_t.fin 0⟩
    specular := ⟨real_t.fin 0, real_t.fin 1, real_t.fin (3 / 4)⟩
    refractive_index := real_t.fin (7 / 4)
    texture := Color3.White }

/-- The material `m` with another texture image: size `look.1`, pixels `look.2`. -/
def Material.withTexture (m : Material) (look : (ℤ × ℤ) × (ℤ → ℤ → Color3 ℚ)) : Material :=
  { m with get_texture_size := look.1, get_texture_pixel := look.2 }

/-- The triangle `self` with other texture images behind the materials of its three
vertices. -/
def withTextures (self : Triangle) (look : Fin 3 → (ℤ × ℤ) × (ℤ → ℤ → Color3 ℚ)) :
    Triangle :=
  { self with
    vertices := fun i =>
      { self.vertices i with
        material := ((self.vertices i).material).map fun m => m.withTexture (look i) } }

/-- The barycentric combination `a0 (1 - β - γ) + a1 β + a2 γ` of three vertex values. -/
def bary (β γ a0 a1 a2 : ℚ) : ℚ := a0 * (1 - β - γ) + a1 * β + a2 * γ
/-! ## Arithmetic of `real_t` -/

namespace real_t

@[simp] theorem fin_add_fin (a b : ℚ) : fin a + fin b = fin (a + b) := rfl

@[simp] theorem fin_sub_fin (a b : ℚ) : fin a - fin b = fin (a - b) := by
  show real_t.add (fin a) (real_t.neg (fin b)) = fin (a - b)
  simp [real_t.add, real_t.neg, sub_eq_add_neg]

@[simp] theorem fin_mul_fin (a b : ℚ) : fin a * fin b = fin (a * b) := rfl

@[simp] theorem lt_fin_fin (a b : ℚ) : (fin a).lt (fin b) = decide (a < b) := rfl

@[simp] theorem gt_fin_fin (a b : ℚ) : (fin a).gt (fin b) = decide (b < a) := rfl

@[simp] theorem ge_fin_fin (a b : ℚ) : (fin a).ge (fin b) = decide (b ≤ a) := rfl

@[simp] theorem nan_lt (x : real_t) : nan.lt x = false := by cases x <;> rfl

@[simp] theorem lt_nan (x : real_t) : x.lt nan = false := by cases x <;> rfl

@[simp] theorem nan_gt (x : real_t) : nan.gt x = false := lt_nan x

@[simp] theorem gt_nan (x : real_t) : x.gt nan = false := nan_lt x

@[simp] theorem nan_ge (x : real_t) : nan.ge x = false := by cases x <;> rfl

@[simp] theorem nan_add (x : real_t) : nan + x = nan := by cases x <;> rfl

@[simp] theorem add_nan (x : real_t) : x + nan = nan := by cases x <;> rfl

@[simp] theorem nan_sub (x : real_t) : nan - x = nan := by cases x <;> rfl

@[simp] theorem sub_nan (x : real_t) : x - nan = nan := by cases x <;> rfl

@[simp] theorem nan_mul (x : real_t) : nan * x = nan := by cases x <;> rfl

@[simp] theorem mul_nan (x : real_t) : x * nan = nan := by cases x <;> rfl

@[simp] theorem fin_add_pinf (a : ℚ) : fin a + pinf = pinf := rfl

@[simp] theorem fin_add_ninf (a : ℚ) : fin a + ninf = ninf := rfl

@[simp] theorem pinf_add_fin (a : ℚ) : pinf + fin a = pinf := rfl

@[simp] theorem ninf_add_fin (a : ℚ) : ninf + fin a = ninf := rfl

@[simp] theorem fin_mul_pinf (a : ℚ) : fin a * pinf = infTimes true a := rfl

@[simp] theorem fin_mul_ninf (a : ℚ) : fin a * ninf = infTimes false a := rfl

@[simp] theorem pinf_mul_fin (a : ℚ) : pinf * fin a = infTimes true a := rfl

@[simp] theorem ninf_mul_fin (a : ℚ) : ninf * fin a = infTimes false a := rfl

@[simp] theorem infTimes_zero (positive : Bool) : infTimes positive 0 = nan := by
  simp [infTimes]

theorem infTimes_true_of_pos {q : ℚ} (hq : 0 < q) : infTimes true q = pinf := by
  simp [infTimes, hq, hq.ne']

theorem div_of_ne (negZero : Bool) (x : ℚ) {m : ℚ} (hm : m ≠ 0) :
    div negZero x m = fin (x / m) := by
  simp [div, hm]

@[simp] theorem div_zero_zero (negZero : Bool) : div negZero 0 0 = nan := by
  simp [div]

end real_t

/-! ## The shape of the routine -/

/-- The routine returns the miss record when one of the three tests rejects, and the
result of lines 120-199 otherwise. -/
theorem intersect_eq (env : Env) (self : Triangle) (ray : Ray) :
    Sphere.intersect env self ray =
      if passes env.EPS (solve env.negZero self ray) then
        shade env self (solve env.negZero self ray) (missRecord env)
      else some (missRecord env) := by
  unfold Sphere.intersect passes missRecord
  simp only []
  by_cases h1 : (solve env.negZero self ray).t.lt (real_t.fin env.EPS) = true
  · simp [h1]
  · by_cases h2 : ((solve env.negZero self ray).gamma.lt (real_t.fin 0)
        || (solve env.negZero self ray).gamma.gt (real_t.fin 1)) = true
    · simp [h1, h2]
    · by_cases h3 : ((solve env.negZero self ray).beta.lt (real_t.fin 0)
          || (solve env.negZero self ray).beta.gt
            (real_t.fin 1 - (solve env.negZero self ray).gamma)) = true
      · simp [h1, h2, h3]
      · simp [h1, h2, h3]

/-- Lines 120-199 have no defined result as soon as one of the three material pointers is
null. -/
theorem shade_eq_none_of_null (env : Env) (self : Triangle) (sv : Solve) (itn : Intersect)
    (h : ∃ i, (self.vertices i).material = none) : shade env self sv itn = none := by
  obtain ⟨i, hi⟩ := h
  unfold shade
  simp only []
  split
  · rename_i m0 m1 m2 h0 h1 h2
    fin_cases i <;> simp_all
  · rfl

/-- The record built by lines 120-199 when the three vertices have materials and the
texture colour is defined. -/
theorem shade_eq_some (env : Env) (self : Triangle) (sv : Solve) (itn : Intersect)
    (m0 m1 m2 : Material) (c : Color3 real_t)
    (h0 : (self.vertices 0).material = some m0) (h1 : (self.vertices 1).material = some m1)
    (h2 : (self.vertices 2).material = some m2)
    (hc : textureColor self m0 m1 m2 (real_t.fin 1 - sv.beta - sv.gamma) sv.beta sv.gamma
      = some c) :
    shade env self sv itn = some
      { intersect := true
        t := itn.t
        position :=
          ((env.make_transformation_matrix self.position self.orientation self.scale).map
            real_t.fin).transform_point
            (sv.E.map real_t.fin + Vector3.smul sv.t (sv.D.map real_t.fin))
        normal := env.normalize ((self.normMat.map real_t.fin).mulVec (env.normalize
          (((self.vertices 0).normal + (self.vertices 1).normal
            + (self.vertices 2).normal).map real_t.fin)))
        ambient := (m0.ambient.map real_t.fin).scale (real_t.fin 1 - sv.beta - sv.gamma)
          + (m1.ambient.map real_t.fin).scale sv.beta
          + (m2.ambient.map real_t.fin).scale sv.gamma
        diffuse := (m0.diffuse.map real_t.fin).scale (real_t.fin 1 - sv.beta - sv.gamma)
          + (m1.diffuse.map real_t.fin).scale sv.beta
          + (m2.diffuse.map real_t.fin).scale sv.gamma
        specular := (m0.specular.map real_t.fin).scale (real_t.fin 1 - sv.beta - sv.gamma)
          + (m1.specular.map real_t.fin).scale sv.beta
          + (m2.specular.map real_t.fin).scale sv.gamma
        refractive_index :=
          real_t.fin m0.refractive_index * (real_t.fin 1 - sv.beta - sv.gamma)
          + real_t.fin m1.refractive_index * sv.beta
          + real_t.fin m2.refractive_index * sv.gamma
        texture := c } := by
  unfold shade
  simp only [h0, h1, h2, hc]

/-- Whenever lines 120-199 return a record, the three vertices have materials, the
texture colour is defined, and the record is the one of `shade_eq_some`. -/
theorem shade_inv (env : Env) (self : Triangle) (sv : Solve) (itn r : Intersect)
    (h : shade env self sv itn = some r) :
    ∃ m0 m1 m2 c, (self.vertices 0).material = some m0 ∧ (self.vertices 1).material = some m1
      ∧ (self.vertices 2).material = some m2
      ∧ textureColor self m0 m1 m2 (real_t.fin 1 - sv.beta - sv.gamma) sv.beta sv.gamma = some c
      ∧ r.intersect = true ∧ r.t = itn.t
      ∧ r.position =
          ((env.make_transformation_matrix self.position self.orientation self.scale).map
            real_t.fin).transform_point
            (sv.E.map real_t.fin + Vector3.smul sv.t (sv.D.map real_t.fin))
      ∧ r.normal = env.normalize ((self.normMat.map real_t.fin).mulVec (env.normalize
          (((self.vertices 0).normal + (self.vertices 1).normal
            + (self.vertices 2).normal).map real_t.fin)))
      ∧ r.ambient = (m0.ambient.map real_t.fin).scale (real_t.fin 1 - sv.beta - sv.gamma)
          + (m1.ambient.map real_t.fin).scale sv.beta
          + (m2.ambient.map real_t.fin).scale sv.gamma
      ∧ r.diffuse = (m0.diffuse.map real_t.fin).scale (real_t.fin 1 - sv.beta - sv.gamma)
          + (m1.diffuse.map real_t.fin).scale sv.beta
          + (m2.diffuse.map real_t.fin).scale sv.gamma
      ∧ r.specular = (m0.specular.map real_t.fin).scale (real_t.fin 1 - sv.beta - sv.gamma)
          + (m1.specular.map real_t.fin).scale sv.beta
          + (m2.specular.map real_t.fin).scale sv.gamma
      ∧ r.refractive_index =
          real_t.fin m0.refractive_index * (real_t.fin 1 - sv.beta - sv.gamma)
          + real_t.fin m1.refractive_index * sv.beta
          + real_t.fin m2.refractive_index * sv.gamma
      ∧ r.texture = c := by
  cases h0 : (self.vertices 0).material with
  | none => rw [shade_eq_none_of_null env self sv itn ⟨0, h0⟩] at h; cases h
  | some m0 =>
    cases h1 : (self.vertices 1).material with
    | none => rw [shade_eq_none_of_null env self sv itn ⟨1, h1⟩] at h; cases h
    | some m1 =>
      cases h2 : (self.vertices 2).material with
      | none => rw [shade_eq_none_of_null env self sv itn ⟨2, h2⟩] at h; cases h
      | some m2 =>
        cases hc : textureColor self m0 m1 m2 (real_t.fin 1 - sv.beta - sv.gamma)
            sv.beta sv.gamma with
        | none =>
          unfold shade at h
          simp only [h0, h1, h2, hc] at h
          cases h
        | some c =>
          rw [shade_eq_some env self sv itn m0 m1 m2 c h0 h1 h2 hc] at h
          cases h
          exact ⟨m0, m1, m2, c, rfl, rfl, rfl, hc, rfl, rfl, rfl, rfl, rfl, rfl, rfl, rfl, rfl⟩

/-- A record that the routine returns carries the flag decided by the three tests. -/
theorem intersect_flag (env : Env) (self : Triangle) (ray : Ray) (itn : Intersect)
    (h : Sphere.intersect env self ray = some itn) :
    itn.intersect = passes env.EPS (solve env.negZero self ray) := by
  rw [intersect_eq] at h
  by_cases hp : passes env.EPS (solve env.negZero self ray) = true
  · rw [if_pos hp] at h
    obtain ⟨_, _, _, _, _, _, _, _, hi, _⟩ := shade_inv env self _ _ itn h
    rw [hi, hp]
  · rw [if_neg hp] at h
    cases h
    simp only [Bool.not_eq_true] at hp
    rw [hp]
    rfl

/-- A returned hit record comes from lines 120-199. -/
theorem intersect_hit_inv (env : Env) (self : Triangle) (ray : Ray) (itn : Intersect)
    (h : Sphere.intersect env self ray = some itn) (hi : itn.intersect = true) :
    passes env.EPS (solve env.negZero self ray) = true
      ∧ shade env self (solve env.negZero self ray) (missRecord env) = some itn := by
  have hf := intersect_flag env self ray itn h
  rw [hi] at hf
  refine ⟨hf.symm, ?_⟩
  rw [intersect_eq, if_pos hf.symm] at h
  exact h

/-! ## The solve -/

theorem Vector3.map_fin_add_smul (E D : Vector3 ℚ) (t : ℚ) :
    E.map real_t.fin + Vector3.smul (real_t.fin t) (D.map real_t.fin)
      = (E + Vector3.smul t D).map real_t.fin := rfl

/-- Cramer's rule: when `M` is not zero, the three quotients are finite and solve the
system `E + t D = (1 - β - γ) v0 + β v1 + γ v2`. -/
theorem solve_finite (negZero : Bool) (self : Triangle) (ray : Ray)
    (hM : (solve negZero self ray).M ≠ 0) :
    ∃ t β γ : ℚ, (solve negZero self ray).t = real_t.fin t
      ∧ (solve negZero self ray).beta = real_t.fin β
      ∧ (solve negZero self ray).gamma = real_t.fin γ
      ∧ (solve negZero self ray).E + Vector3.smul t (solve negZero self ray).D
          = Vector3.smul (1 - β - γ) (self.vertices 0).position
            + Vector3.smul β (self.vertices 1).position
            + Vector3.smul γ (self.vertices 2).position := by
  refine ⟨_, _, _, real_t.div_of_ne negZero _ hM, real_t.div_of_ne negZero _ hM,
    real_t.div_of_ne negZero _ hM, ?_⟩
  simp only [solve] at hM ⊢
  generalize self.invMat.transform_point ray.e = E at hM ⊢
  generalize self.invMat.transform_vector ray.d = D at hM ⊢
  generalize (self.vertices 0).position = v0 at hM ⊢
  generalize (self.vertices 1).position = v1 at hM ⊢
  generalize (self.vertices 2).position = v2 at hM ⊢
  obtain ⟨Ex, Ey, Ez⟩ := E
  obtain ⟨Dx, Dy, Dz⟩ := D
  obtain ⟨ax, ay, az⟩ := v0
  obtain ⟨bx, b_y, bz⟩ := v1
  obtain ⟨cx, cy, cz⟩ := v2
  simp only at hM
  show Vector3.add _ _ = Vector3.add (Vector3.add _ _) _
  simp only [Vector3.add, Vector3.smul, Vector3.mk.injEq]
  refine ⟨?_, ?_, ?_⟩ <;> field_simp <;> ring

/-- Uniqueness in Cramer's rule: when `M` is not zero, every solution of the system
`E + t0 D = (1 - w1 - w2) v0 + w1 v1 + w2 v2` is the one the routine computes. -/
theorem solve_unique (negZero : Bool) (self : Triangle) (ray : Ray)
    (hM : (solve negZero self ray).M ≠ 0) (t0 w1 w2 : ℚ)
    (h : (solve negZero self ray).E + Vector3.smul t0 (solve negZero self ray).D
          = Vector3.smul (1 - w1 - w2) (self.vertices 0).position
            + Vector3.smul w1 (self.vertices 1).position
            + Vector3.smul w2 (self.vertices 2).position) :
    (solve negZero self ray).t = real_t.fin t0
      ∧ (solve negZero self ray).beta = real_t.fin w1
      ∧ (solve negZero self ray).gamma = real_t.fin w2 := by
  rw [show (solve negZero self ray).t = _ from real_t.div_of_ne negZero _ hM,
    show (solve negZero self ray).beta = _ from real_t.div_of_ne negZero _ hM,
    show (solve negZero self ray).gamma = _ from real_t.div_of_ne negZero _ hM]
  simp only [solve] at hM h ⊢
  generalize self.invMat.transform_point ray.e = E at hM h ⊢
  generalize self.invMat.transform_vector ray.d = D at hM h ⊢
  generalize (self.vertices 0).position = v0 at hM h ⊢
  generalize (self.vertices 1).position = v1 at hM h ⊢
  generalize (self.vertices 2).position = v2 at hM h ⊢
  obtain ⟨Ex, Ey, Ez⟩ := E
  obtain ⟨Dx, Dy, Dz⟩ := D
  obtain ⟨ax, ay, az⟩ := v0
  obtain ⟨bx, b_y, bz⟩ := v1
  obtain ⟨cx, cy, cz⟩ := v2
  simp only at hM
  change Vector3.add _ _ = Vector3.add (Vector3.add _ _) _ at h
  simp only [Vector3.add, Vector3.smul, Vector3.mk.injEq] at h
  obtain ⟨hx, hy, hz⟩ := h
  simp only [real_t.fin.injEq]
  refine ⟨?_, ?_, ?_⟩
  · rw [div_eq_iff hM]
    linear_combination
      ((ay - cy) * (az - bz) - (az - cz) * (ay - b_y)) * hx
        + ((az - cz) * (ax - bx) - (ax - cx) * (az - bz)) * hy
        + ((ax - cx) * (ay - b_y) - (ay - cy) * (ax - bx)) * hz
  · rw [div_eq_iff hM]
    linear_combination
      (-((ay - cy) * Dz - Dy * (az - cz))) * hx + (-(Dx * (az - cz) - (ax - cx) * Dz)) * hy
        + (-((ax - cx) * Dy - (ay - cy) * Dx)) * hz
  · rw [div_eq_iff hM]
    linear_combination
      (-(Dy * (az - bz) - Dz * (ay - b_y))) * hx + (-(Dz * (ax - bx) - Dx * (az - bz))) * hy
        + (-(Dx * (ay - b_y) - Dy * (ax - bx))) * hz

theorem vector2_add_def {α : Type} [Add α] (u v : Vector2 α) :
    u + v = ⟨u.x + v.x, u.y + v.y⟩ := rfl

theorem vector3_add_def {α : Type} [Add α] (u v : Vector3 α) :
    u + v = ⟨u.x + v.x, u.y + v.y, u.z + v.z⟩ := rfl

theorem color3_add_def {α : Type} [Add α] (c d : Color3 α) :
    c + d = ⟨c.r + d.r, c.g + d.g, c.b + d.b⟩ := rfl

/-- With finite quotients the three tests of lines 107-118 are the five inequalities
`EPS ≤ t`, `0 ≤ γ ≤ 1`, `0 ≤ β ≤ 1 - γ`. -/
theorem passes_fin (EPS : ℚ) (sv : Solve) (t β γ : ℚ) (ht : sv.t = real_t.fin t)
    (hb : sv.beta = real_t.fin β) (hg : sv.gamma = real_t.fin γ) :
    passes EPS sv = true ↔ EPS ≤ t ∧ 0 ≤ γ ∧ γ ≤ 1 ∧ 0 ≤ β ∧ β ≤ 1 - γ := by
  unfold passes
  rw [ht, hb, hg]
  simp only [real_t.fin_sub_fin, real_t.lt_fin_fin, real_t.gt_fin_fin, Bool.and_eq_true,
    Bool.not_eq_true', Bool.or_eq_false_iff, decide_eq_false_iff_not, not_lt]
  tauto

/-- With finite weights the texture colour of lines 155-196 is defined. -/
theorem textureColor_fin (self : Triangle) (m0 m1 m2 : Material) (w0 β γ : ℚ) :
    ∃ c, textureColor self m0 m1 m2 (real_t.fin w0) (real_t.fin β) (real_t.fin γ) = some c := by
  unfold textureColor
  split
  · exact ⟨_, rfl⟩
  · simp only [vector2_add_def, Vector2.scale, Vector2.map, real_t.fin_mul_fin,
      real_t.fin_add_fin, real_t.floor, real_t.fin_sub_fin, sample, real_t.toInt]
    exact ⟨_, rfl⟩

/-- With finite quotients and materials on the three vertices, lines 120-199 return a
record. -/
theorem shade_fin (env : Env) (self : Triangle) (sv : Solve) (itn : Intersect) (β γ : ℚ)
    (hb : sv.beta = real_t.fin β) (hg : sv.gamma = real_t.fin γ)
    (hm : ∀ i, ((self.vertices i).material).isSome = true) :
    ∃ r, shade env self sv itn = some r := by
  obtain ⟨m0, h0⟩ := Option.isSome_iff_exists.mp (hm 0)
  obtain ⟨m1, h1⟩ := Option.isSome_iff_exists.mp (hm 1)
  obtain ⟨m2, h2⟩ := Option.isSome_iff_exists.mp (hm 2)
  obtain ⟨c, hc⟩ := textureColor_fin self m0 m1 m2 (1 - β - γ) β γ
  rw [← real_t.fin_sub_fin, ← real_t.fin_sub_fin, ← hb, ← hg] at hc
  exact ⟨_, shade_eq_some env self sv itn m0 m1 m2 c h0 h1 h2 hc⟩

/-! ## Evaluation on the sample data -/

theorem exSurface_vertices_zero (a b c : Vertex) : (exSurface a b c).vertices 0 = a := rfl

theorem exSurface_vertices_one (a b c : Vertex) : (exSurface a b c).vertices 1 = b := rfl

theorem exSurface_vertices_two (a b c : Vertex) : (exSurface a b c).vertices 2 = c := rfl

/-- The solve of the sample ray on the sample triangle: `M = -1`, `t = 1`,
`β = γ = 1/4`. -/
theorem solve_exTriangle_exRay (negZero : Bool) :
    solve negZero exTriangle exRay =
      { E := ⟨1 / 4, 1 / 4, 1⟩, D := ⟨0, 0, -1⟩, M := -1, t := real_t.fin 1,
        gamma := real_t.fin (1 / 4), beta := real_t.fin (1 / 4) } := by
  simp only [solve, exTriangle, exRay, exSurface_vertices_zero, exSurface_vertices_one,
    exSurface_vertices_two, exVertex, exSurface, Matrix4.transform_point,
    Matrix4.transform_vector, Matrix3.mulVec, Vector3.dot, vector3_add_def, real_t.div]
  norm_num

/-! ## C1: the quotients solve the ray-triangle system -/

/-- When the three vertices of the triangle are the same point, the determinant and the
three numerators vanish: `M = 0` and `t`, `γ`, `β` are `0/0`, not-a-number, whatever
the ray. -/
theorem solve_coincident (negZero : Bool) (self : Triangle) (ray : Ray)
    (h1 : (self.vertices 1).position = (self.vertices 0).position)
    (h2 : (self.vertices 2).position = (self.vertices 0).position) :
    (solve negZero self ray).M = 0 ∧ (solve negZero self ray).t = real_t.nan
      ∧ (solve negZero self ray).gamma = real_t.nan
      ∧ (solve negZero self ray).beta = real_t.nan := by
  simp only [solve, h1, h2, sub_self, zero_mul, mul_zero, add_zero, neg_zero,
    real_t.div_zero_zero, and_self]

/-- Every comparison with not-a-number is false, so none of the three tests of lines
107-118 rejects quotients that are not-a-number. -/
theorem passes_nan (EPS : ℚ) (sv : Solve) (ht : sv.t = real_t.nan)
    (hg : sv.gamma = real_t.nan) (hb : sv.beta = real_t.nan) : passes EPS sv = true := by
  simp [passes, ht, hg, hb]

/-- When none of the three materials has a texture, the texture colour is white. -/
theorem textureColor_white (self : Triangle) (m0 m1 m2 : Material) (w0 β γ : real_t)
    (e0 : m0.texture_filename.isEmpty = true) (e1 : m1.texture_filename.isEmpty = true)
    (e2 : m2.texture_filename.isEmpty = true) :
    textureColor self m0 m1 m2 w0 β γ = some Color3.White := by
  simp [textureColor, e0, e1, e2]

/-- The routine reports a hit, for every ray, on a triangle whose three vertices are the
same point and carry materials without texture: `M = 0`, the quotients are
not-a-number, and the record of lines 120-199 is returned. -/
theorem intersect_coincident (env : Env) (self : Triangle) (ray : Ray) (m0 m1 m2 : Material)
    (h1 : (self.vertices 1).position = (self.vertices 0).position)
    (h2 : (self.vertices 2).position = (self.vertices 0).position)
    (hm0 : (self.vertices 0).material = some m0) (hm1 : (self.vertices 1).material = some m1)
    (hm2 : (self.vertices 2).material = some m2)
    (e0 : m0.texture_filename.isEmpty = true) (e1 : m1.texture_filename.isEmpty = true)
    (e2 : m2.texture_filename.isEmpty = true) :
    ∃ itn, Sphere.intersect env self ray = some itn ∧ itn.intersect = true
      ∧ itn.ambient = ⟨real_t.nan, real_t.nan, real_t.nan⟩
      ∧ itn.diffuse = ⟨real_t.nan, real_t.nan, real_t.nan⟩
      ∧ itn.specular = ⟨real_t.nan, real_t.nan, real_t.nan⟩
      ∧ itn.refractive_index = real_t.nan := by
  obtain ⟨_, ht, hg, hb⟩ := solve_coincident env.negZero self ray h1 h2
  have hp := passes_nan env.EPS _ ht hg hb
  rw [intersect_eq, if_pos hp,
    shade_eq_some env self _ _ m0 m1 m2 Color3.White hm0 hm1 hm2
      (textureColor_white self m0 m1 m2 _ _ _ e0 e1 e2)]
  refine ⟨_, rfl, rfl, ?_, ?_, ?_, ?_⟩ <;>
    simp [hg, hb, color3_add_def, Color3.scale, Color3.map]

/-- The sample degenerate triangle is reported as hit by every ray, in every
environment. -/
theorem intersect_exPoint (env : Env) (ray : Ray) :
    ∃ itn, Sphere.intersect env exPoint ray = some itn ∧ itn.intersect = true
      ∧ itn.ambient = ⟨real_t.nan, real_t.nan, real_t.nan⟩
      ∧ itn.diffuse = ⟨real_t.nan, real_t.nan, real_t.nan⟩
      ∧ itn.specular = ⟨real_t.nan, real_t.nan, real_t.nan⟩
      ∧ itn.refractive_index = real_t.nan :=
  intersect_coincident env exPoint ray (exMaterial 0) (exMaterial 1) (exMaterial 2)
    rfl rfl rfl rfl rfl rfl rfl rfl

/-- The quotients of the sample degenerate triangle. -/
theorem solve_exPoint (negZero : Bool) (ray : Ray) :
    (solve negZero exPoint ray).M = 0 ∧ (solve negZero exPoint ray).t = real_t.nan
      ∧ (solve negZero exPoint ray).gamma = real_t.nan
      ∧ (solve negZero exPoint ray).beta = real_t.nan :=
  solve_coincident negZero exPoint ray rfl rfl

/-- The solve of the sample ray that runs parallel to the plane of the sample triangle,
along one of its edges: `M = 0`, and the quotients are `1/0`, `0/0` and `1/0`. -/
theorem solve_exTriangle_exRayParallel :
    solve false exTriangle exRayParallel =
      { E := ⟨1 / 4, 1 / 4, -1⟩, D := ⟨1, 0, 0⟩, M := 0, t := real_t.pinf,
        gamma := real_t.nan, beta := real_t.pinf } := by
  simp only [solve, exTriangle, exRayParallel, exSurface_vertices_zero,
    exSurface_vertices_one, exSurface_vertices_two, exVertex, exSurface,
    Matrix4.transform_point, Matrix4.transform_vector, Matrix3.mulVec, Vector3.dot,
    vector3_add_def, real_t.div]
  norm_num

/-- The three tests let the quotients `+inf`, `NaN`, `+inf` through. -/
theorem passes_exTriangle_exRayParallel :
    passes exEnv.EPS (solve exEnv.negZero exTriangle exRayParallel) = true := by
  show passes exEnv.EPS (solve false exTriangle exRayParallel) = true
  rw [solve_exTriangle_exRayParallel]
  rfl

/-- A returned hit record with `M ≠ 0` has finite quotients that satisfy the five
inequalities `EPS ≤ t`, `0 ≤ γ ≤ 1`, `0 ≤ β ≤ 1 - γ`. -/
theorem hit_bounds_of_M_ne (env : Env) (self : Triangle) (ray : Ray) (itn : Intersect)
    (hM : (solve env.negZero self ray).M ≠ 0)
    (h : Sphere.intersect env self ray = some itn) (hi : itn.intersect = true) :
    ∃ t β γ : ℚ, (solve env.negZero self ray).t = real_t.fin t
      ∧ (solve env.negZero self ray).beta = real_t.fin β
      ∧ (solve env.negZero self ray).gamma = real_t.fin γ
      ∧ env.EPS ≤ t ∧ 0 ≤ γ ∧ γ ≤ 1 ∧ 0 ≤ β ∧ β ≤ 1 - γ := by
  obtain ⟨t, β, γ, ht, hb, hg, _⟩ := solve_finite env.negZero self ray hM
  obtain ⟨hp, _⟩ := intersect_hit_inv env self ray itn h hi
  exact ⟨t, β, γ, ht, hb, hg, (passes_fin env.EPS _ t β γ ht hb hg).mp hp⟩

/-! ## C2: `t ≥ EPS` on a hit -/

/-- Away from `M = 0` the invariant of C2 holds: a returned hit record has a finite
`t` with `t ≥ EPS`. -/
theorem hit_t_ge_EPS_of_M_ne (env : Env) (self : Triangle) (ray : Ray) (itn : Intersect)
    (hM : (solve env.negZero self ray).M ≠ 0)
    (h : Sphere.intersect env self ray = some itn) (hi : itn.intersect = true) :
    (solve env.negZero self ray).t.ge (real_t.fin env.EPS) = true := by
  obtain ⟨t, β, γ, ht, _, _, h1, _⟩ := hit_bounds_of_M_ne env self ray itn hM h hi
  rw [ht]
  simpa using h1

/-- C2, evaluated at a failing input: on the triangle whose three vertices are the point
`(0,0,0)` the routine returns a record with `intersect == true` for the sample ray,
although the parametric distance is `0/0`, not-a-number, for which `t >= EPS` is
false. -/
theorem hit_with_t_not_ge_EPS :
    ∃ itn, Sphere.intersect exEnv exPoint exRay = some itn ∧ itn.intersect = true
      ∧ (solve exEnv.negZero exPoint exRay).t = real_t.nan
      ∧ (solve exEnv.negZero exPoint exRay).t.ge (real_t.fin exEnv.EPS) = false := by
  obtain ⟨itn, h, hi, _⟩ := intersect_exPoint exEnv exRay
  obtain ⟨_, ht, _, _⟩ := solve_exPoint exEnv.negZero exRay
  exact ⟨itn, h, hi, ht, by rw [ht]; rfl⟩

/-! ## C3: the barycentric weights on a hit -/

/-- Away from `M = 0` the invariant of C3 holds: on a returned hit record the weights
`1 - β - γ`, `β`, `γ` are finite, each lies in `[0, 1]`, and they sum to one. -/
theorem hit_weights_of_M_ne (env : Env) (self : Triangle) (ray : Ray) (itn : Intersect)
    (hM : (solve env.negZero self ray).M ≠ 0)
    (h : Sphere.intersect env self ray = some itn) (hi : itn.intersect = true) :
    ∃ w0 β γ : ℚ,
      real_t.fin 1 - (solve env.negZero self ray).beta - (solve env.negZero self ray).gamma
        = real_t.fin w0
      ∧ (solve env.negZero self ray).beta = real_t.fin β
      ∧ (solve env.negZero self ray).gamma = real_t.fin γ
      ∧ (0 ≤ w0 ∧ w0 ≤ 1) ∧ (0 ≤ β ∧ β ≤ 1) ∧ (0 ≤ γ ∧ γ ≤ 1) ∧ w0 + β + γ = 1 := by
  obtain ⟨t, β, γ, _, hb, hg, _, h2, h3, h4, h5⟩ :=
    hit_bounds_of_M_ne env self ray itn hM h hi
  refine ⟨1 - β - γ, β, γ, by rw [hb, hg]; simp, hb, hg, ⟨by linarith, by linarith⟩,
    ⟨h4, by linarith⟩, ⟨h2, h3⟩, by ring⟩

/-- C3, evaluated at a failing input: on the triangle whose three vertices are the point
`(0,0,0)` the routine reports a hit for the sample ray with `β` and `γ` not-a-number;
the weight `1 - β - γ` is not-a-number too, and none of the three is `>= 0`. -/
theorem hit_with_nan_weights :
    ∃ itn, Sphere.intersect exEnv exPoint exRay = some itn ∧ itn.intersect = true
      ∧ (solve exEnv.negZero exPoint exRay).beta = real_t.nan
      ∧ (solve exEnv.negZero exPoint exRay).gamma = real_t.nan
      ∧ real_t.fin 1 - (solve exEnv.negZero exPoint exRay).beta
          - (solve exEnv.negZero exPoint exRay).gamma = real_t.nan
      ∧ (solve exEnv.negZero exPoint exRay).beta.ge (real_t.fin 0) = false
      ∧ (solve exEnv.negZero exPoint exRay).gamma.ge (real_t.fin 0) = false
      ∧ (real_t.fin 1 - (solve exEnv.negZero exPoint exRay).beta
          - (solve exEnv.negZero exPoint exRay).gamma).ge (real_t.fin 0) = false := by
  obtain ⟨itn, h, hi, _⟩ := intersect_exPoint exEnv exRay
  obtain ⟨_, _, hg, hb⟩ := solve_exPoint exEnv.negZero exRay
  refine ⟨itn, h, hi, hb, hg, ?_, ?_, ?_, ?_⟩
  · rw [hb, hg]; rfl
  · rw [hb]; rfl
  · rw [hg]; rfl
  · rw [hb, hg]; rfl

/-! ## C4: completeness of the hit test -/

/-- The routine reports a hit for the sample ray that runs parallel to the plane of the
sample triangle and never meets it; the position of the record is not-a-number. -/
theorem intersect_exTriangle_exRayParallel :
    ∃ itn, Sphere.intersect exEnv exTriangle exRayParallel = some itn
      ∧ itn.intersect = true
      ∧ itn.position = ⟨real_t.nan, real_t.nan, real_t.nan⟩ := by
  rw [intersect_eq, if_pos passes_exTriangle_exRayParallel,
    shade_eq_some exEnv exTriangle _ _ (exMaterial 0) (exMaterial 1) (exMaterial 2)
      Color3.White rfl rfl rfl (textureColor_white exTriangle _ _ _ _ _ _ rfl rfl rfl)]
  refine ⟨_, rfl, rfl, ?_⟩
  show ((exEnv.make_transformation_matrix exTriangle.position exTriangle.orientation
    exTriangle.scale).map real_t.fin).transform_point
      ((solve false exTriangle exRayParallel).E.map real_t.fin
        + Vector3.smul (solve false exTriangle exRayParallel).t
          ((solve false exTriangle exRayParallel).D.map real_t.fin)) = _
  rw [solve_exTriangle_exRayParallel]
  simp [exEnv, exTriangle, exSurface, Matrix4.map, Matrix3.map, Vector3.map,
    Matrix4.transform_point, Matrix3.mulVec, Vector3.dot, Vector3.smul, vector3_add_def,
    real_t.infTimes_true_of_pos]

/-- C5, evaluated at two failing inputs.  For the sample triangle and the sample ray
parallel to its plane, and for the triangle whose three vertices are one point and the
sample ray, the determinant `M` is zero and the routine returns a record with
`intersect == true`, not a miss. -/
theorem zero_determinant_reported_as_hit :
    ((solve exEnv.negZero exTriangle exRayParallel).M = 0
      ∧ ∃ itn, Sphere.intersect exEnv exTriangle exRayParallel = some itn
        ∧ itn.intersect = true)
    ∧ ((solve exEnv.negZero exPoint exRay).M = 0
      ∧ ∃ itn, Sphere.intersect exEnv exPoint exRay = some itn ∧ itn.intersect = true) := by
  refine ⟨⟨?_, ?_⟩, ⟨(solve_exPoint exEnv.negZero exRay).1, ?_⟩⟩
  · show (solve false exTriangle exRayParallel).M = 0
    rw [solve_exTriangle_exRayParallel]
  · obtain ⟨itn, h, hi, _⟩ := intersect_exTriangle_exRayParallel
    exact ⟨itn, h, hi⟩
  · obtain ⟨itn, h, hi, _⟩ := intersect_exPoint exEnv exRay
    exact ⟨itn, h, hi⟩

/-! ## C6: vertices without material -/

/-- The constructor does not touch the positions: the solve of a freshly constructed
triangle is the solve of the data it was constructed over. -/
theorem solve_Triangle (negZero : Bool) (raw : Triangle) (ray : Ray) :
    solve negZero (Triangle.Triangle raw) ray = solve negZero raw ray := rfl

/-- Whenever the three tests pass and one of the three material pointers is null, the
routine has no defined result: line 136, 137 or 138 dereferences the null pointer. -/
theorem intersect_eq_none_of_null (env : Env) (self : Triangle) (ray : Ray)
    (hp : passes env.EPS (solve env.negZero self ray) = true)
    (h : ∃ i, (self.vertices i).material = none) :
    Sphere.intersect env self ray = none := by
  rw [intersect_eq, if_pos hp, shade_eq_none_of_null env self _ _ h]

/-- The flag under which `Triangle::render` reads a material is false exactly when one of
the three material pointers is null. -/
theorem materials_nonnull_eq_false_iff (self : Triangle) :
    materials_nonnull self = false ↔ ∃ i, (self.vertices i).material = none := by
  have hr : List.finRange 3 = [0, 1, 2] := by decide
  simp only [materials_nonnull, hr, List.foldl, Bool.true_and]
  constructor
  · intro h
    by_contra hc
    simp only [not_exists, ← ne_eq, Option.ne_none_iff_isSome] at hc
    rw [hc ⟨0, _⟩, hc ⟨1, _⟩, hc ⟨2, _⟩] at h
    cases h
  · rintro ⟨i, hi⟩
    fin_cases i <;> simp_all

/-- Whenever the three tests pass and the flag of `Triangle::render` is false, the routine
has no defined result. -/
theorem intersect_eq_none_of_not_nonnull (env : Env) (self : Triangle) (ray : Ray)
    (hp : passes env.EPS (solve env.negZero self ray) = true)
    (h : materials_nonnull self = false) : Sphere.intersect env self ray = none :=
  intersect_eq_none_of_null env self ray hp ((materials_nonnull_eq_false_iff self).mp h)

/-- The three tests pass for the sample ray on the sample triangle. -/
theorem passes_exTriangle_exRay :
    passes exEnv.EPS (solve exEnv.negZero exTriangle exRay) = true := by
  rw [passes_fin exEnv.EPS _ 1 (1 / 4) (1 / 4) (by rw [solve_exTriangle_exRay])
    (by rw [solve_exTriangle_exRay]) (by rw [solve_exTriangle_exRay])]
  norm_num [exEnv]

/-- C6, evaluated at a failing input: for the sample triangle in the state the constructor
`Triangle::Triangle()` leaves its vertices in (three null material pointers) and the
sample ray, which hits it, the three tests pass and the routine has no defined result:
it returns no record, neither a hit with neutral material values nor a miss.  The flag
under which the sibling `Triangle::render` reads a material is false here. -/
theorem hit_without_material_fails :
    (∀ i, (exBare.vertices i).material = none)
      ∧ materials_nonnull exBare = false
      ∧ passes exEnv.EPS (solve exEnv.negZero exBare exRay) = true
      ∧ Sphere.intersect exEnv exBare exRay = none := by
  have hp : passes exEnv.EPS (solve exEnv.negZero exBare exRay) = true := by
    show passes exEnv.EPS (solve exEnv.negZero (Triangle.Triangle exTriangle) exRay) = true
    rw [solve_Triangle]
    exact passes_exTriangle_exRay
  exact ⟨fun _ => rfl, rfl, hp, intersect_eq_none_of_null exEnv exBare exRay hp ⟨0, rfl⟩⟩

/-! ## C7: the member `t` of the record -/

/-- The routine returns the record `exHit` for the sample ray on the sample triangle. -/
theorem intersect_exTriangle_exRay :
    Sphere.intersect exEnv exTriangle exRay = some exHit := by
  rw [intersect_eq, if_pos passes_exTriangle_exRay,
    shade_eq_some exEnv exTriangle _ _ (exMaterial 0) (exMaterial 1) (exMaterial 2)
      Color3.White rfl rfl rfl (textureColor_white exTriangle _ _ _ _ _ _ rfl rfl rfl)]
  show some
    ({ intersect := true, t := (missRecord exEnv).t, position := _, normal := _,
       ambient := _, diffuse := _, specular := _, refractive_index := _,
       texture := Color3.White } : Intersect) = some exHit
  rw [solve_exTriangle_exRay]
  simp only [exHit, Option.some.injEq, Intersect.mk.injEq, true_and]
  refine ⟨rfl, ?_, ?_, ?_, ?_, ?_, ?_⟩ <;>
    simp [exEnv, exTriangle, exSurface, exVertex, exMaterial, Matrix4.map, Matrix3.map,
      Vector3.map, Matrix4.transform_point, Matrix3.mulVec, Vector3.dot, Vector3.smul,
      vector3_add_def, color3_add_def, Color3.scale, Color3.map] <;>
    norm_num

/-- C7 fails as stated: the record returned for the sample ray on the sample triangle is a
hit whose member `t` is `0`, the content of the default-constructed record, while the
solve gives the parametric distance `t = 1`. -/
theorem record_t_differs_from_solved_t :
    ∃ itn, Sphere.intersect exEnv exTriangle exRay = some itn ∧ itn.intersect = true
      ∧ itn.t = real_t.fin 0
      ∧ (solve exEnv.negZero exTriangle exRay).t = real_t.fin 1
      ∧ itn.t ≠ (solve exEnv.negZero exTriangle exRay).t := by
  refine ⟨exHit, intersect_exTriangle_exRay, rfl, rfl, ?_, ?_⟩
  · rw [solve_exTriangle_exRay]
  · rw [solve_exTriangle_exRay]
    show real_t.fin 0 ≠ real_t.fin 1
    simp

/-- C7 as amended: for every ray and triangle for which the routine returns a hit record,
the record carries the world position of the point `E + t D` at the solved `t`,
the normal, and the material channels interpolated with the solved `β` and `γ`; the
routine never writes the member `t` of the record, which keeps the content of the
default-constructed record. -/
theorem record_carries_position_not_t (env : Env) (self : Triangle) (ray : Ray)
    (itn : Intersect) (h : Sphere.intersect env self ray = some itn)
    (hi : itn.intersect = true) :
    itn.t = env.itn0.t
      ∧ itn.position =
          ((env.make_transformation_matrix self.position self.orientation self.scale).map
            real_t.fin).transform_point
            ((solve env.negZero self ray).E.map real_t.fin
              + Vector3.smul (solve env.negZero self ray).t
                ((solve env.negZero self ray).D.map real_t.fin))
      ∧ itn.normal = env.normalize ((self.normMat.map real_t.fin).mulVec (env.normalize
          (((self.vertices 0).normal + (self.vertices 1).normal
            + (self.vertices 2).normal).map real_t.fin)))
      ∧ ∃ m0 m1 m2, (self.vertices 0).material = some m0
        ∧ (self.vertices 1).material = some m1 ∧ (self.vertices 2).material = some m2
        ∧ itn.ambient = (m0.ambient.map real_t.fin).scale
              (real_t.fin 1 - (solve env.negZero self ray).beta
                - (solve env.negZero self ray).gamma)
            + (m1.ambient.map real_t.fin).scale (solve env.negZero self ray).beta
            + (m2.ambient.map real_t.fin).scale (solve env.negZero self ray).gamma
        ∧ itn.diffuse = (m0.diffuse.map real_t.fin).scale
              (real_t.fin 1 - (solve env.negZero self ray).beta
                - (solve env.negZero self ray).gamma)
            + (m1.diffuse.map real_t.fin).scale (solve env.negZero self ray).beta
            + (m2.diffuse.map real_t.fin).scale (solve env.negZero self ray).gamma
        ∧ itn.specular = (m0.specular.map real_t.fin).scale
              (real_t.fin 1 - (solve env.negZero self ray).beta
                - (solve env.negZero self ray).gamma)
            + (m1.specular.map real_t.fin).scale (solve env.negZero self ray).beta
            + (m2.specular.map real_t.fin).scale (solve env.negZero self ray).gamma
        ∧ itn.refractive_index =
            real_t.fin m0.refractive_index
              * (real_t.fin 1 - (solve env.negZero self ray).beta
                - (solve env.negZero self ray).gamma)
            + real_t.fin m1.refractive_index * (solve env.negZero self ray).beta
            + real_t.fin m2.refractive_index * (solve env.negZero self ray).gamma := by
  obtain ⟨_, hs⟩ := intersect_hit_inv env self ray itn h hi
  obtain ⟨m0, m1, m2, c, h0, h1, h2, _, _, ht, hpos, hn, ha, hd, hsp, hr, _⟩ :=
    shade_inv env self _ _ itn hs
  exact ⟨ht, hpos, hn, m0, m1, m2, h0, h1, h2, ha, hd, hsp, hr⟩

/-- C7 as amended, on the sample data. -/
theorem record_carries_position_not_t_witness :
    Sphere.intersect exEnv exTriangle exRay = some exHit ∧ exHit.intersect = true
      ∧ exHit.t = exEnv.itn0.t
      ∧ exHit.position =
          ((exEnv.make_transformation_matrix exTriangle.position exTriangle.orientation
            exTriangle.scale).map real_t.fin).transform_point
            ((solve exEnv.negZero exTriangle exRay).E.map real_t.fin
              + Vector3.smul (solve exEnv.negZero exTriangle exRay).t
                ((solve exEnv.negZero exTriangle exRay).D.map real_t.fin)) :=
  ⟨intersect_exTriangle_exRay, rfl,
    (record_carries_position_not_t exEnv exTriangle exRay exHit
      intersect_exTriangle_exRay rfl).1,
    (record_carries_position_not_t exEnv exTriangle exRay exHit
      intersect_exTriangle_exRay rfl).2.1⟩

/-! ## C8: the interpolated material channels -/

/-- The channels of a returned hit record, as lines 135-153 compute them. -/
theorem record_channels (env : Env) (self : Triangle) (ray : Ray)
    (itn : Intersect) (h : Sphere.intersect env self ray = some itn)
    (hi : itn.intersect = true) :
    ∃ m0 m1 m2, (self.vertices 0).material = some m0
      ∧ (self.vertices 1).material = some m1 ∧ (self.vertices 2).material = some m2
      ∧ itn.ambient = (m0.ambient.map real_t.fin).scale
            (real_t.fin 1 - (solve env.negZero self ray).beta
              - (solve env.negZero self ray).gamma)
          + (m1.ambient.map real_t.fin).scale (solve env.negZero self ray).beta
          + (m2.ambient.map real_t.fin).scale (solve env.negZero self ray).gamma
      ∧ itn.diffuse = (m0.diffuse.map real_t.fin).scale
            (real_t.fin 1 - (solve env.negZero self ray).beta
              - (solve env.negZero self ray).gamma)
          + (m1.diffuse.map real_t.fin).scale (solve env.negZero self ray).beta
          + (m2.diffuse.map real_t.fin).scale (solve env.negZero self ray).gamma
      ∧ itn.specular = (m0.specular.map real_t.fin).scale
            (real_t.fin 1 - (solve env.negZero self ray).beta
              - (solve env.negZero self ray).gamma)
          + (m1.specular.map real_t.fin).scale (solve env.negZero self ray).beta
          + (m2.specular.map real_t.fin).scale (solve env.negZero self ray).gamma
      ∧ itn.refractive_index =
          real_t.fin m0.refractive_index
            * (real_t.fin 1 - (solve env.negZero self ray).beta
              - (solve env.negZero self ray).gamma)
          + real_t.fin m1.refractive_index * (solve env.negZero self ray).beta
          + real_t.fin m2.refractive_index * (solve env.negZero self ray).gamma := by
  obtain ⟨_, hs⟩ := intersect_hit_inv env self ray itn h hi
  obtain ⟨m0, m1, m2, c, h0, h1, h2, _, _, _, _, _, ha, hd, hsp, hr, _⟩ :=
    shade_inv env self _ _ itn hs
  exact ⟨m0, m1, m2, h0, h1, h2, ha, hd, hsp, hr⟩

/-- A barycentric combination with weights `1 - β - γ`, `β`, `γ ≥ 0` lies between the
least and the greatest of the three values. -/
theorem bary_between (β γ a0 a1 a2 : ℚ) (hb : 0 ≤ β) (hg : 0 ≤ γ) (hbg : β + γ ≤ 1) :
    min a0 (min a1 a2) ≤ bary β γ a0 a1 a2 ∧ bary β γ a0 a1 a2 ≤ max a0 (max a1 a2) := by
  have hw : 0 ≤ 1 - β - γ := by linarith
  have l0 : min a0 (min a1 a2) ≤ a0 := min_le_left _ _
  have l1 : min a0 (min a1 a2) ≤ a1 := le_trans (min_le_right _ _) (min_le_left _ _)
  have l2 : min a0 (min a1 a2) ≤ a2 := le_trans (min_le_right _ _) (min_le_right _ _)
  have u0 : a0 ≤ max a0 (max a1 a2) := le_max_left _ _
  have u1 : a1 ≤ max a0 (max a1 a2) := le_trans (le_max_left _ _) (le_max_right _ _)
  have u2 : a2 ≤ max a0 (max a1 a2) := le_trans (le_max_right _ _) (le_max_right _ _)
  have p0 := mul_nonneg (sub_nonneg.mpr l0) hw
  have p1 := mul_nonneg (sub_nonneg.mpr l1) hb
  have p2 := mul_nonneg (sub_nonneg.mpr l2) hg
  have q0 := mul_nonneg (sub_nonneg.mpr u0) hw
  have q1 := mul_nonneg (sub_nonneg.mpr u1) hb
  have q2 := mul_nonneg (sub_nonneg.mpr u2) hg
  unfold bary
  constructor <;> nlinarith

/-- The barycentric combination of three equal values is that value. -/
theorem bary_const (β γ a : ℚ) : bary β γ a a a = a := by
  unfold bary
  ring

/-- Away from `M = 0` the statement of C8 holds: on a returned hit record every channel
is the barycentric combination of the three vertex values, with weights `β`, `γ ≥ 0`
and `β + γ ≤ 1`, so that `bary_between` and `bary_const` apply to it. -/
theorem hit_channels_of_M_ne (env : Env) (self : Triangle) (ray : Ray) (itn : Intersect)
    (m0 m1 m2 : Material) (hM : (solve env.negZero self ray).M ≠ 0)
    (h : Sphere.intersect env self ray = some itn) (hi : itn.intersect = true)
    (h0 : (self.vertices 0).material = some m0) (h1 : (self.vertices 1).material = some m1)
    (h2 : (self.vertices 2).material = some m2) :
    ∃ β γ : ℚ, (solve env.negZero self ray).beta = real_t.fin β
      ∧ (solve env.negZero self ray).gamma = real_t.fin γ
      ∧ 0 ≤ β ∧ 0 ≤ γ ∧ β + γ ≤ 1
      ∧ itn.ambient = ⟨real_t.fin (bary β γ m0.ambient.r m1.ambient.r m2.ambient.r),
          real_t.fin (bary β γ m0.ambient.g m1.ambient.g m2.ambient.g),
          real_t.fin (bary β γ m0.ambient.b m1.ambient.b m2.ambient.b)⟩
      ∧ itn.diffuse = ⟨real_t.fin (bary β γ m0.diffuse.r m1.diffuse.r m2.diffuse.r),
          real_t.fin (bary β γ m0.diffuse.g m1.diffuse.g m2.diffuse.g),
          real_t.fin (bary β γ m0.diffuse.b m1.diffuse.b m2.diffuse.b)⟩
      ∧ itn.specular = ⟨real_t.fin (bary β γ m0.specular.r m1.specular.r m2.specular.r),
          real_t.fin (bary β γ m0.specular.g m1.specular.g m2.specular.g),
          real_t.fin (bary β γ m0.specular.b m1.specular.b m2.specular.b)⟩
      ∧ itn.refractive_index = real_t.fin
          (bary β γ m0.refractive_index m1.refractive_index m2.refractive_index) := by
  obtain ⟨t, β, γ, _, hb, hg, _, hg0, _, hb0, hb1⟩ :=
    hit_bounds_of_M_ne env self ray itn hM h hi
  obtain ⟨_, _, _, hm0, hm1, hm2, ha, hd, hsp, hr⟩ :=
    record_channels env self ray itn h hi
  rw [h0] at hm0
  rw [h1] at hm1
  rw [h2] at hm2
  cases hm0
  cases hm1
  cases hm2
  refine ⟨β, γ, hb, hg, hb0, hg0, by linarith, ?_, ?_, ?_, ?_⟩
  · rw [ha, hb, hg]
    simp [color3_add_def, Color3.scale, Color3.map, bary]
  · rw [hd, hb, hg]
    simp [color3_add_def, Color3.scale, Color3.map, bary]
  · rw [hsp, hb, hg]
    simp [color3_add_def, Color3.scale, Color3.map, bary]
  · rw [hr, hb, hg]
    simp [bary]

/-- C8, evaluated at a failing input: on the triangle whose three vertices are the point
`(0,0,0)`, each with a material, the routine reports a hit for the sample ray whose
interpolated channels are not-a-number: the red ambient channel, with vertex values
`0`, `1`, `2`, is not `>= 0`, and the green ambient channel is not the value `0`
that the three vertices share. -/
theorem hit_with_nan_channels :
    ∃ itn, Sphere.intersect exEnv exPoint exRay = some itn ∧ itn.intersect = true
      ∧ (∀ i, ((exPoint.vertices i).material).isSome = true)
      ∧ itn.ambient.r = real_t.nan ∧ itn.ambient.r.ge (real_t.fin 0) = false
      ∧ (∀ i m, (exPoint.vertices i).material = some m → m.ambient.g = 0)
      ∧ itn.ambient.g ≠ real_t.fin 0
      ∧ itn.refractive_index = real_t.nan := by
  obtain ⟨itn, h, hi, ha, _, _, hr⟩ := intersect_exPoint exEnv exRay
  refine ⟨itn, h, hi, ?_, by rw [ha], by rw [ha]; rfl, ?_, by rw [ha]; simp, hr⟩
  · intro i
    fin_cases i <;> rfl
  · intro i m hm
    fin_cases i <;> cases hm <;> rfl

/-! ## C9: no texture -/

/-- Other texture images behind the materials do not change the solve. -/
theorem solve_withTextures (negZero : Bool) (self : Triangle) (ray : Ray)
    (look : Fin 3 → (ℤ × ℤ) × (ℤ → ℤ → Color3 ℚ)) :
    solve negZero (withTextures self look) ray = solve negZero self ray := rfl

/-- C9: for every hit on a triangle none of whose three vertex materials defines a texture
(the three texture file names are empty), the texture colour of the returned record is
exactly white, and no texture lookup takes place: the routine returns the same record
whatever the sizes and the pixels of the texture images behind the three materials. -/
theorem texture_white_without_lookup (env : Env) (self : Triangle) (ray : Ray)
    (itn : Intersect) (m0 m1 m2 : Material)
    (h : Sphere.intersect env self ray = some itn) (hi : itn.intersect = true)
    (h0 : (self.vertices 0).material = some m0) (h1 : (self.vertices 1).material = some m1)
    (h2 : (self.vertices 2).material = some m2)
    (e0 : m0.texture_filename.isEmpty = true) (e1 : m1.texture_filename.isEmpty = true)
    (e2 : m2.texture_filename.isEmpty = true) :
    itn.texture = Color3.White
      ∧ ∀ look : Fin 3 → (ℤ × ℤ) × (ℤ → ℤ → Color3 ℚ),
          Sphere.intersect env (withTextures self look) ray = some itn := by
  obtain ⟨hp, hs⟩ := intersect_hit_inv env self ray itn h hi
  rw [shade_eq_some env self _ _ m0 m1 m2 Color3.White h0 h1 h2
    (textureColor_white self m0 m1 m2 _ _ _ e0 e1 e2)] at hs
  cases hs
  refine ⟨rfl, fun look => ?_⟩
  have hp' : passes env.EPS (solve env.negZero (withTextures self look) ray) = true := hp
  have k0 : ((withTextures self look).vertices 0).material = some (m0.withTexture (look 0)) := by
    simp [withTextures, h0]
  have k1 : ((withTextures self look).vertices 1).material = some (m1.withTexture (look 1)) := by
    simp [withTextures, h1]
  have k2 : ((withTextures self look).vertices 2).material = some (m2.withTexture (look 2)) := by
    simp [withTextures, h2]
  rw [intersect_eq, if_pos hp',
    shade_eq_some env (withTextures self look) _ _ _ _ _ Color3.White k0 k1 k2
      (textureColor_white _ _ _ _ _ _ _ e0 e1 e2)]
  rfl

/-- C9 on the sample data, whose three materials have no texture. -/
theorem texture_white_without_lookup_witness :
    Sphere.intersect exEnv exTriangle exRay = some exHit ∧ exHit.intersect = true
      ∧ exHit.texture = Color3.White
      ∧ ∀ look : Fin 3 → (ℤ × ℤ) × (ℤ → ℤ → Color3 ℚ),
          Sphere.intersect exEnv (withTextures exTriangle look) exRay = some exHit :=
  ⟨intersect_exTriangle_exRay, rfl,
    texture_white_without_lookup exEnv exTriangle exRay exHit (exMaterial 0) (exMaterial 1)
      (exMaterial 2) intersect_exTriangle_exRay rfl rfl rfl rfl rfl rfl rfl⟩

/-! ## C10: the world position of a hit -/

/-- When `inv` is the inverse of `fwd`, the image under `fwd` of the point at parameter `t`
of the transformed ray is the point at parameter `t` of the ray itself. -/
theorem transform_inverse (fwd inv : Matrix4 ℚ) (hinv : inv.IsInverseOf fwd)
    (e d : Vector3 ℚ) (t : ℚ) :
    fwd.transform_point (inv.transform_point e + Vector3.smul t (inv.transform_vector d))
      = e + Vector3.smul t d := by
  obtain ⟨_, h⟩ := hinv
  obtain ⟨⟨⟨f00, f01, f02⟩, ⟨f10, f11, f12⟩, ⟨f20, f21, f22⟩⟩, ⟨fx, fy, fz⟩⟩ := fwd
  obtain ⟨⟨⟨i00, i01, i02⟩, ⟨i10, i11, i12⟩, ⟨i20, i21, i22⟩⟩, ⟨ix, iy, iz⟩⟩ := inv
  obtain ⟨ex, ey, ez⟩ := e
  obtain ⟨dx, dy, dz⟩ := d
  simp only [Matrix4.mul, Matrix4.one, Matrix3.mul, Matrix3.one, Matrix3.mulVec, Vector3.dot,
    vector3_add_def, Matrix4.mk.injEq, Matrix3.mk.injEq, Vector3.mk.injEq] at h
  obtain ⟨⟨⟨a00, a01, a02⟩, ⟨a10, a11, a12⟩, ⟨a20, a21, a22⟩⟩, ⟨bx, b_y, bz⟩⟩ := h
  simp only [Matrix4.transform_point, Matrix4.transform_vector, Matrix3.mulVec, Vector3.dot,
    vector3_add_def, Vector3.smul, Vector3.mk.injEq]
  refine ⟨?_, ?_, ?_⟩
  · linear_combination (ex + t * dx) * a00 + (ey + t * dy) * a01 + (ez + t * dz) * a02 + bx
  · linear_combination (ex + t * dx) * a10 + (ey + t * dy) * a11 + (ez + t * dz) * a12 + b_y
  · linear_combination (ex + t * dx) * a20 + (ey + t * dy) * a21 + (ez + t * dz) * a22 + bz

theorem Matrix4.map_fin_transform_point (m : Matrix4 ℚ) (v : Vector3 ℚ) :
    (m.map real_t.fin).transform_point (v.map real_t.fin)
      = (m.transform_point v).map real_t.fin := rfl

/-- Away from `M = 0` the statement of C10 holds: when `invMat` is the inverse of the
transformation matrix of the surface, the position of a returned hit record is the point
`ray.e + t ray.d` of the world-space ray at the solved, finite, `t`. -/
theorem hit_position_of_M_ne (env : Env) (self : Triangle) (ray : Ray) (itn : Intersect)
    (hinv : self.invMat.IsInverseOf
      (env.make_transformation_matrix self.position self.orientation self.scale))
    (hM : (solve env.negZero self ray).M ≠ 0)
    (h : Sphere.intersect env self ray = some itn) (hi : itn.intersect = true) :
    ∃ t : ℚ, (solve env.negZero self ray).t = real_t.fin t
      ∧ itn.position = (ray.e + Vector3.smul t ray.d).map real_t.fin := by
  obtain ⟨t, β, γ, ht, _, _, _⟩ := solve_finite env.negZero self ray hM
  obtain ⟨_, hs⟩ := intersect_hit_inv env self ray itn h hi
  obtain ⟨_, _, _, _, _, _, _, _, _, _, hpos, _⟩ := shade_inv env self _ _ itn hs
  refine ⟨t, ht, ?_⟩
  rw [hpos, ht, Vector3.map_fin_add_smul, Matrix4.map_fin_transform_point]
  exact congrArg _ (transform_inverse _ self.invMat hinv ray.e ray.d t)

/-- The matrix `invMat` of the sample surface is the inverse of its transformation
matrix. -/
theorem exTriangle_invMat :
    exTriangle.invMat.IsInverseOf
      (exEnv.make_transformation_matrix exTriangle.position exTriangle.orientation
        exTriangle.scale) := by
  constructor <;>
    simp [Matrix4.mul, Matrix4.one, Matrix3.mul, Matrix3.one, Matrix3.mulVec, Vector3.dot,
      vector3_add_def, exTriangle, exSurface, exEnv] <;>
    norm_num

/-- C10, evaluated at a failing input: for the sample triangle, whose `invMat` is the
inverse of its transformation matrix, and the sample ray parallel to its plane, the
routine reports a hit with `t = +inf`; the position of the record is not-a-number in
its three coordinates, while `ray.e + t ray.d` has first coordinate `+inf`. -/
theorem parallel_hit_position_off_ray :
    exTriangle.invMat.IsInverseOf
      (exEnv.make_transformation_matrix exTriangle.position exTriangle.orientation
        exTriangle.scale)
    ∧ ∃ itn, Sphere.intersect exEnv exTriangle exRayParallel = some itn
      ∧ itn.intersect = true
      ∧ (solve exEnv.negZero exTriangle exRayParallel).t = real_t.pinf
      ∧ itn.position = ⟨real_t.nan, real_t.nan, real_t.nan⟩
      ∧ exRayParallel.e.map real_t.fin
          + Vector3.smul (solve exEnv.negZero exTriangle exRayParallel).t
            (exRayParallel.d.map real_t.fin)
          = ⟨real_t.pinf, real_t.nan, real_t.nan⟩
      ∧ itn.position ≠ exRayParallel.e.map real_t.fin
          + Vector3.smul (solve exEnv.negZero exTriangle exRayParallel).t
            (exRayParallel.d.map real_t.fin) := by
  obtain ⟨itn, h, hi, hpos⟩ := intersect_exTriangle_exRayParallel
  have ht : (solve exEnv.negZero exTriangle exRayParallel).t = real_t.pinf := by
    show (solve false exTriangle exRayParallel).t = real_t.pinf
    rw [solve_exTriangle_exRayParallel]
  have hray : exRayParallel.e.map real_t.fin
      + Vector3.smul (solve exEnv.negZero exTriangle exRayParallel).t
        (exRayParallel.d.map real_t.fin) = ⟨real_t.pinf, real_t.nan, real_t.nan⟩ := by
    rw [ht]
    simp [exRayParallel, Vector3.map, Vector3.smul, vector3_add_def,
      real_t.infTimes_true_of_pos]
  refine ⟨exTriangle_invMat, itn, h, hi, ht, hpos, hray, ?_⟩
  rw [hpos, hray]
  simp

/-! ## C11: the pixel coordinates of a texture lookup -/

/-- The texture branch of lines 163-196 samples the three materials at the wrapped
interpolated coordinate. -/
theorem textureColor_eq (self : Triangle) (m0 m1 m2 : Material) (w0 β γ : real_t) :
    textureColor self m0 m1 m2 w0 β γ =
      if m0.texture_filename.isEmpty && m1.texture_filename.isEmpty
          && m2.texture_filename.isEmpty then
        some Color3.White
      else
        match sample m0 (texWrap (texInterp self w0 β γ)),
            sample m1 (texWrap (texInterp self w0 β γ)),
            sample m2 (texWrap (texInterp self w0 β γ)) with
        | some c0, some c1, some c2 =>
          some (Color3.Black + c0.scale w0 + c1.scale β + c2.scale γ)
        | _, _, _ => none := rfl

/-- With finite weights the interpolated texture coordinate is finite. -/
theorem texInterp_fin (self : Triangle) (w0 β γ : ℚ) :
    ∃ u v : ℚ, texInterp self (real_t.fin w0) (real_t.fin β) (real_t.fin γ)
      = ⟨real_t.fin u, real_t.fin v⟩ :=
  ⟨_, _, rfl⟩

/-- On a returned hit record with `M ≠ 0` the interpolated texture coordinate is finite. -/
theorem texInterp_fin_of_M_ne (env : Env) (self : Triangle) (ray : Ray) (itn : Intersect)
    (hM : (solve env.negZero self ray).M ≠ 0)
    (h : Sphere.intersect env self ray = some itn) (hi : itn.intersect = true) :
    ∃ u v : ℚ, texInterp self
        (real_t.fin 1 - (solve env.negZero self ray).beta - (solve env.negZero self ray).gamma)
        (solve env.negZero self ray).beta (solve env.negZero self ray).gamma
      = ⟨real_t.fin u, real_t.fin v⟩ := by
  obtain ⟨w0, β, γ, hw, hb, hg, _⟩ := hit_weights_of_M_ne env self ray itn hM h hi
  rw [hw, hb, hg]
  exact texInterp_fin self w0 β γ

/-- With weights that are not-a-number the interpolated texture coordinate is
not-a-number, and its conversion to `int` is undefined. -/
theorem texel_nan (self : Triangle) (m : Material) :
    texel m (texWrap (texInterp self real_t.nan real_t.nan real_t.nan)) = none := by
  simp [texel, texWrap, texInterp, vector2_add_def, Vector2.scale, Vector2.map,
    real_t.floor, real_t.toInt]

/-- The normal of a returned hit record is the result of lines 132-133, with the helper
`normalize` of the environment. -/
theorem hit_normal_eq (env : Env) (self : Triangle) (ray : Ray) (itn : Intersect)
    (h : Sphere.intersect env self ray = some itn) (hi : itn.intersect = true) :
    itn.normal = worldNormal env.normalize real_t.fin self := by
  obtain ⟨_, hs⟩ := intersect_hit_inv env self ray itn h hi
  obtain ⟨_, _, _, _, _, _, _, _, _, _, _, hn, _⟩ := shade_inv env self _ _ itn hs
  exact hn

/-- C13: in the configuration of `p3/util.hpp` photon mapping is disabled: the photon
budget `PHOTON_COUNT` and the gather count `PHOTON_SAMPLE_COUNT` are both `0`, while the
recursion bound `MAX_DEPTH` and the photon bounce bound `MAX_PHOTON_DEPTH` are both `10`
and the direct-light sample count `DIRECT_SAMPLE_COUNT` is `10`. -/
theorem photon_mapping_disabled :
    PHOTON_COUNT = 0 ∧ PHOTON_SAMPLE_COUNT = 0 ∧ MAX_DEPTH = 10 ∧ MAX_PHOTON_DEPTH = 10
      ∧ DIRECT_SAMPLE_COUNT = 10 :=
  ⟨rfl, rfl, rfl, rfl, rfl⟩

/-! ## C14: the normal does not depend on the hit point -/

/-- C14: for any two rays that both hit the same triangle, the routine returns the same
normal: it is the result of lines 132-133, in which the vertex normals are summed
without weights and neither `β` nor `γ` occurs. -/
theorem normal_independent_of_hit_point (env : Env) (self : Triangle) (ray ray' : Ray)
    (itn itn' : Intersect)
    (h : Sphere.intersect env self ray = some itn) (hi : itn.intersect = true)
    (h' : Sphere.intersect env self ray' = some itn') (hi' : itn'.intersect = true) :
    itn.normal = itn'.normal
      ∧ itn.normal = env.normalize ((self.normMat.map real_t.fin).mulVec (env.normalize
        (((self.vertices 0).normal + (self.vertices 1).normal
          + (self.vertices 2).normal).map real_t.fin))) := by
  have e1 := hit_normal_eq env self ray itn h hi
  have e2 := hit_normal_eq env self ray' itn' h' hi'
  exact ⟨e1.trans e2.symm, e1⟩

/-- The solve of the second sample ray on the sample triangle: `t = 1`, `β = 1/2`,
`γ = 1/4`. -/
theorem solve_exTriangle_exRay2 (negZero : Bool) :
    solve negZero exTriangle exRay2 =
      { E := ⟨1 / 2, 1 / 4, 1⟩, D := ⟨0, 0, -1⟩, M := -1, t := real_t.fin 1,
        gamma := real_t.fin (1 / 4), beta := real_t.fin (1 / 2) } := by
  simp only [solve, exTriangle, exRay2, exSurface_vertices_zero, exSurface_vertices_one,
    exSurface_vertices_two, exVertex, exSurface, Matrix4.transform_point,
    Matrix4.transform_vector, Matrix3.mulVec, Vector3.dot, vector3_add_def, real_t.div]
  norm_num

/-- The routine returns a hit record for the second sample ray on the sample triangle. -/
theorem intersect_exTriangle_exRay2 :
    ∃ itn, Sphere.intersect exEnv exTriangle exRay2 = some itn ∧ itn.intersect = true := by
  have hp : passes exEnv.EPS (solve exEnv.negZero exTriangle exRay2) = true := by
    rw [passes_fin exEnv.EPS _ 1 (1 / 2) (1 / 4) (by rw [solve_exTriangle_exRay2])
      (by rw [solve_exTriangle_exRay2]) (by rw [solve_exTriangle_exRay2])]
    norm_num [exEnv]
  obtain ⟨r, hr⟩ := shade_fin exEnv exTriangle (solve exEnv.negZero exTriangle exRay2)
    (missRecord exEnv) (1 / 2) (1 / 4) (by rw [solve_exTriangle_exRay2])
    (by rw [solve_exTriangle_exRay2]) (by intro i; fin_cases i <;> rfl)
  have hI : Sphere.intersect exEnv exTriangle exRay2 = some r := by
    rw [intersect_eq, if_pos hp, hr]
  exact ⟨r, hI, by rw [intersect_flag exEnv exTriangle exRay2 r hI, hp]⟩

/-- C14 on the sample data: the two sample rays hit the sample triangle at different
points, `β = 1/4` and `β = 1/2`, and the two records have the same normal. -/
theorem normal_independent_of_hit_point_witness :
    (solve exEnv.negZero exTriangle exRay).beta = real_t.fin (1 / 4)
      ∧ (solve exEnv.negZero exTriangle exRay2).beta = real_t.fin (1 / 2)
      ∧ ∃ itn', Sphere.intersect exEnv exTriangle exRay = some exHit
        ∧ Sphere.intersect exEnv exTriangle exRay2 = some itn' ∧ itn'.intersect = true
        ∧ exHit.normal = itn'.normal := by
  obtain ⟨itn', h', hi'⟩ := intersect_exTriangle_exRay2
  exact ⟨by rw [solve_exTriangle_exRay], by rw [solve_exTriangle_exRay2], itn',
    intersect_exTriangle_exRay, h', hi',
    (normal_independent_of_hit_point exEnv exTriangle exRay exRay2 exHit itn'
      intersect_exTriangle_exRay rfl h' hi').1⟩

/-! ## C15: rescaling the ray direction -/

/-- Scaling the world-space direction of a ray by `s` leaves the object-space origin
unchanged and scales the object-space direction by `s`. -/
theorem solve_scaled_ray (negZero : Bool) (self : Triangle) (ray : Ray) (s : ℚ) :
    (solve negZero self ⟨ray.e, Vector3.smul s ray.d⟩).E = (solve negZero self ray).E
      ∧ (solve negZero self ⟨ray.e, Vector3.smul s ray.d⟩).D
          = Vector3.smul s (solve negZero self ray).D := by
  refine ⟨rfl, ?_⟩
  simp only [solve, Matrix4.transform_vector, Matrix3.mulVec, Vector3.dot, Vector3.smul,
    Vector3.mk.injEq]
  refine ⟨?_, ?_, ?_⟩ <;> ring

/-! ## C16: exchanging vertices 1 and 2 -/

theorem swapVertices_vertices_zero (self : Triangle) :
    (swapVertices self).vertices 0 = self.vertices 0 := rfl

theorem swapVertices_vertices_one (self : Triangle) :
    (swapVertices self).vertices 1 = self.vertices 2 := rfl

theorem swapVertices_vertices_two (self : Triangle) :
    (swapVertices self).vertices 2 = self.vertices 1 := rfl

/-- Exchanging vertices 1 and 2 negates the determinant and leaves the object-space ray
unchanged. -/
theorem solve_swapVertices_M (negZero : Bool) (self : Triangle) (ray : Ray) :
    (solve negZero (swapVertices self) ray).M = -(solve negZero self ray).M
      ∧ (solve negZero (swapVertices self) ray).E = (solve negZero self ray).E
      ∧ (solve negZero (swapVertices self) ray).D = (solve negZero self ray).D := by
  refine ⟨?_, rfl, rfl⟩
  simp only [solve, swapVertices_vertices_zero, swapVertices_vertices_one,
    swapVertices_vertices_two]
  have hi : (swapVertices self).invMat = self.invMat := rfl
  rw [hi]
  ring

/-- Away from `M = 0` the statement of C16 holds: exchanging vertices 1 and 2 negates
`M`, leaves `t` unchanged, exchanges `β` and `γ`, and leaves the result of the three
tests unchanged. -/
theorem swapVertices_of_M_ne (env : Env) (self : Triangle) (ray : Ray)
    (hM : (solve env.negZero self ray).M ≠ 0) :
    (solve env.negZero (swapVertices self) ray).M = -(solve env.negZero self ray).M
      ∧ (solve env.negZero (swapVertices self) ray).t = (solve env.negZero self ray).t
      ∧ (solve env.negZero (swapVertices self) ray).beta = (solve env.negZero self ray).gamma
      ∧ (solve env.negZero (swapVertices self) ray).gamma = (solve env.negZero self ray).beta
      ∧ passes env.EPS (solve env.negZero (swapVertices self) ray)
          = passes env.EPS (solve env.negZero self ray) := by
  obtain ⟨hm, hE, hD⟩ := solve_swapVertices_M env.negZero self ray
  have hM' : (solve env.negZero (swapVertices self) ray).M ≠ 0 := by
    rw [hm]
    exact neg_ne_zero.mpr hM
  obtain ⟨t, β, γ, ht, hb, hg, hsys⟩ := solve_finite env.negZero self ray hM
  have hsys' : (solve env.negZero (swapVertices self) ray).E
      + Vector3.smul t (solve env.negZero (swapVertices self) ray).D
      = Vector3.smul (1 - γ - β) ((swapVertices self).vertices 0).position
        + Vector3.smul γ ((swapVertices self).vertices 1).position
        + Vector3.smul β ((swapVertices self).vertices 2).position := by
    rw [hE, hD, hsys, swapVertices_vertices_zero, swapVertices_vertices_one,
      swapVertices_vertices_two]
    simp only [vector3_add_def, Vector3.smul, Vector3.mk.injEq]
    refine ⟨?_, ?_, ?_⟩ <;> ring
  obtain ⟨ht', hb', hg'⟩ := solve_unique env.negZero (swapVertices self) ray hM' t γ β hsys'
  refine ⟨hm, by rw [ht, ht'], by rw [hb', hg], by rw [hg', hb], ?_⟩
  rw [Bool.eq_iff_iff, passes_fin env.EPS _ t γ β ht' hb' hg',
    passes_fin env.EPS _ t β γ ht hb hg]
  constructor
  · rintro ⟨h1, h2, h3, h4, h5⟩
    exact ⟨h1, h4, by linarith, h2, by linarith⟩
  · rintro ⟨h1, h2, h3, h4, h5⟩
    exact ⟨h1, h4, by linarith, h2, by linarith⟩

/-- The solve of the sample ray parallel to the plane on the sample triangle with vertices
1 and 2 exchanged: `M = 0`, and the quotients are `-1/0`, `-1/0` and `0/0`. -/
theorem solve_swapVertices_exTriangle_exRayParallel :
    solve false (swapVertices exTriangle) exRayParallel =
      { E := ⟨1 / 4, 1 / 4, -1⟩, D := ⟨1, 0, 0⟩, M := 0, t := real_t.ninf,
        gamma := real_t.ninf, beta := real_t.nan } := by
  simp only [solve, swapVertices_vertices_zero, swapVertices_vertices_one,
    swapVertices_vertices_two, swapVertices, exTriangle, exRayParallel,
    exSurface_vertices_zero, exSurface_vertices_one, exSurface_vertices_two, exVertex,
    exSurface, Matrix4.transform_point, Matrix4.transform_vector, Matrix3.mulVec,
    Vector3.dot, vector3_add_def, real_t.div]
  norm_num

/-- C16, evaluated at a failing input: for the sample triangle and the sample ray parallel
to its plane, `M = 0` and the routine reports a hit, with `t = +inf`; with vertices 1
and 2 exchanged `M = 0` again, `t = -inf`, and the routine returns the miss record: the
exchange changes `t` and the hit flag. -/
theorem swap_changes_hit_flag :
    (solve exEnv.negZero exTriangle exRayParallel).M = 0
      ∧ (solve exEnv.negZero (swapVertices exTriangle) exRayParallel).M = 0
      ∧ (solve exEnv.negZero exTriangle exRayParallel).t = real_t.pinf
      ∧ (solve exEnv.negZero (swapVertices exTriangle) exRayParallel).t = real_t.ninf
      ∧ (∃ itn, Sphere.intersect exEnv exTriangle exRayParallel = some itn
          ∧ itn.intersect = true)
      ∧ Sphere.intersect exEnv (swapVertices exTriangle) exRayParallel
          = some (missRecord exEnv)
      ∧ (missRecord exEnv).intersect = false := by
  have h1 : solve exEnv.negZero exTriangle exRayParallel
      = solve false exTriangle exRayParallel := rfl
  have h2 : solve exEnv.negZero (swapVertices exTriangle) exRayParallel
      = solve false (swapVertices exTriangle) exRayParallel := rfl
  obtain ⟨itn, h, hi, _⟩ := intersect_exTriangle_exRayParallel
  refine ⟨by rw [h1, solve_exTriangle_exRayParallel],
    by rw [h2, solve_swapVertices_exTriangle_exRayParallel],
    by rw [h1, solve_exTriangle_exRayParallel],
    by rw [h2, solve_swapVertices_exTriangle_exRayParallel], ⟨itn, h, hi⟩, ?_, rfl⟩
  rw [intersect_eq, h2, solve_swapVertices_exTriangle_exRayParallel]
  rfl

end Raytracer
